import Mathlib

/-!
# Verification of the SOP validation framework

Shallow embedding of the SOP compliance engine: the validator registry
(`validators.ts`), the scoring/gating configuration (`metrics-config.ts`),
the general best-practices rule engine (`general-practices-validator.ts`)
and the self-correction loop (`self-correction.ts`).

JavaScript strings are modelled as Lean `String`, numbers as `ℚ` (exact
arithmetic for the score formulas) and `ℕ` (counts, indices).  JavaScript
regular-expression tests are modelled by hand-rolled scanners, one named
definition per source pattern; each scanner implements the exact
greedy/backtracking behaviour of its regex on the character classes it
uses.  Code that can raise (`GeneralRule.check`, an arbitrary function
field in the source) is modelled in the `Except` monad.
-/

namespace SOP

/-! ## Character classes and JS string primitives -/

abbrev Chars := List Char

/-- JS `\w` character class: `[A-Za-z0-9_]`. -/
def isWordChar (c : Char) : Bool := c.isAlphanum || c = '_'

/-- JS `\s` character class (ASCII whitespace). -/
def isWS (c : Char) : Bool := c = ' ' || c = '\t' || c = '\n' || c = '\r'

/-- A single or double quote character. -/
def isQuote (c : Char) : Bool := c = Char.ofNat 39 || c = '"'

/-- Lower-case a character list (used for `/i` regex flags). -/
def lowerC (cs : Chars) : Chars := cs.map Char.toLower

/-- Split a character list at a separator character, keeping empty
segments (the behaviour of JS `split` with a one-character separator). -/
def splitCharAux (sep : Char) : Chars → Chars → List String
  | [], acc => [String.mk acc.reverse]
  | c :: rest, acc =>
    if c = sep then String.mk acc.reverse :: splitCharAux sep rest []
    else splitCharAux sep rest (c :: acc)

/-- JS `String.prototype.split(sep)` for a one-character separator. -/
def splitChar (s : String) (sep : Char) : List String :=
  splitCharAux sep s.toList []

/-- JS `String.prototype.split('\n')`. -/
def jsLines (s : String) : List String := splitChar s '\n'

/-- JS `String.prototype.includes` (substring containment). -/
def sContains (s pat : String) : Bool :=
  pat.toList.isEmpty || s.toList.tails.any (fun t => pat.toList.isPrefixOf t)

/-- JS `String.prototype.endsWith`. -/
def sEndsWith (s suf : String) : Bool := suf.toList.isSuffixOf s.toList

/-- Leading/trailing whitespace removal, JS `String.prototype.trim`. -/
def jsTrim (s : String) : String :=
  String.mk (((s.toList.dropWhile isWS).reverse.dropWhile isWS).reverse)

/-- JS `Array.prototype.join('\n')` for a list of lines. -/
def joinNl (l : List String) : String := String.intercalate "\n" l

/-- JS `lines.slice(a, b)` (clamping is implicit for `ℕ` bounds). -/
def jsSlice (l : List String) (a b : ℕ) : List String := (l.drop a).take (b - a)

/-- The line number (1-based) of character index `i` inside `content`:
JS `content.substring(0, i).split('\n').length`. -/
def lineOfIndex (content : String) (i : ℕ) : ℕ :=
  ((content.toList.take i).filter (fun c => c = '\n')).length + 1

/-- JS `String.prototype.indexOf(pat, from)`; `-1` when absent. -/
def indexOfJS (s pat : String) (start : ℕ) : ℤ :=
  let cl := s.toList
  let pl := pat.toList
  match (List.range (cl.length + 1)).find? (fun i => start ≤ i && pl.isPrefixOf (cl.drop i)) with
  | some i => (i : ℤ)
  | none => -1

/-- JS `String.prototype.lastIndexOf(pat, pos)`; `-1` when absent. -/
def lastIndexOfJS (s pat : String) (pos : ℕ) : ℤ :=
  let cl := s.toList
  let pl := pat.toList
  match ((List.range (pos + 1)).filter (fun i => pl.isPrefixOf (cl.drop i))).getLast? with
  | some i => (i : ℤ)
  | none => -1

/-- JS `String.prototype.substring(a, b)`: negative arguments are clamped
to `0`, arguments above the length are clamped to the length, and the two
are swapped when `a > b`. -/
def jsSubstring (s : String) (a b : ℤ) : String :=
  let n : ℤ := s.toList.length
  let a' := min (max a 0) n
  let b' := min (max b 0) n
  let lo := (min a' b').toNat
  let hi := (max a' b').toNat
  String.mk ((s.toList.drop lo).take (hi - lo))

/-! ## Scanner primitives

A scanner consumes a prefix of a character list and returns the rest,
mirroring one step of a regex match at a fixed position. -/

/-- Consume an exact literal. -/
def eatLit : Chars → Chars → Option Chars
  | [], cs => some cs
  | p :: ps, c :: cs => if c = p then eatLit ps cs else none
  | _ :: _, [] => none

/-- Consume an exact literal, case-insensitively (regex `/i` flag). -/
def eatLitCI : Chars → Chars → Option Chars
  | [], cs => some cs
  | p :: ps, c :: cs => if c.toLower = p.toLower then eatLitCI ps cs else none
  | _ :: _, [] => none

/-- Consume a literal given as a `String`. -/
def lit (pat : String) (cs : Chars) : Option Chars := eatLit pat.toList cs

/-- Case-insensitive literal. -/
def litCI (pat : String) (cs : Chars) : Option Chars := eatLitCI pat.toList cs

/-- Regex `\s*`. -/
def wsStar (cs : Chars) : Chars := cs.dropWhile isWS

/-- Regex `\s+`. -/
def wsPlus (cs : Chars) : Option Chars :=
  match cs with
  | c :: rest => if isWS c then some (rest.dropWhile isWS) else none
  | [] => none

/-- Regex `p+` for a character class `p`: the greedy span, required
non-empty.  Returns `(consumed, rest)`. -/
def classPlus (p : Char → Bool) (cs : Chars) : Option (Chars × Chars) :=
  match cs with
  | c :: rest =>
    if p c then some ((c :: rest).takeWhile p, (c :: rest).dropWhile p)
    else none
  | [] => none

/-- Regex `p*` for a character class `p`: greedy span, `(consumed, rest)`. -/
def classStar (p : Char → Bool) (cs : Chars) : Chars × Chars :=
  (cs.takeWhile p, cs.dropWhile p)

/-- Consume one character from a class. -/
def oneOf (p : Char → Bool) (cs : Chars) : Option (Char × Chars) :=
  match cs with
  | c :: rest => if p c then some (c, rest) else none
  | [] => none

/-- Ordered alternation of literals (regex `(a|b|…)`), returning the
matched alternative and the rest.  The alternatives used in the source are
mutually non-prefix, so first-match semantics agree with JS backtracking. -/
def altLits : List String → Chars → Option (String × Chars)
  | [], _ => none
  | a :: rest, cs =>
    match lit a cs with
    | some r => some (a, r)
    | none => altLits rest cs

/-- Ordered alternation of literals matched case-insensitively. -/
def altLitsCI : List String → Chars → Option (String × Chars)
  | [], _ => none
  | a :: rest, cs =>
    match litCI a cs with
    | some r => some (a, r)
    | none => altLitsCI rest cs

/-- `true` when the scanner matches at some position of the list
(JS `regex.test(s)` for an unanchored regex). -/
def testAnyC (m : Chars → Bool) (cs : Chars) : Bool := cs.tails.any m

/-- `regex.test(line)` on a `String`. -/
def testAny (m : Chars → Bool) (s : String) : Bool := testAnyC m s.toList

/-- First match of a capturing scanner over a string, with the index at
which it matched (JS `s.match(re)` for a `/g`-less regex). -/
def firstMatchAux (m : Chars → Option α) : Chars → ℕ → Option (ℕ × α)
  | [], _ => none
  | c :: cs, i =>
    match m (c :: cs) with
    | some a => some (i, a)
    | none => firstMatchAux m cs (i + 1)

def firstMatch (m : Chars → Option α) (s : String) : Option (ℕ × α) :=
  firstMatchAux m s.toList 0

/-- All matches of a capturing scanner `m` (which returns a capture and
the rest of the input after the match), with their start indices:
JS `s.matchAll(re)` for a `/g` regex.  Matches are non-overlapping and
scanning resumes after each match.  The fuel argument (initially the
input length, which strictly bounds the number of steps) makes the
recursion structural; it is never exhausted. -/
def matchAllAux (m : Chars → Option (α × Chars)) : ℕ → Chars → ℕ → List (ℕ × α)
  | _, [], _ => []
  | 0, _ :: _, _ => []
  | fuel + 1, c :: cs, i =>
    match m (c :: cs) with
    | some (a, rest) =>
      if rest.length < cs.length + 1 then
        (i, a) :: matchAllAux m fuel rest (i + (cs.length + 1 - rest.length))
      else
        (i, a) :: matchAllAux m fuel cs (i + 1)
    | none => matchAllAux m fuel cs (i + 1)

def matchAll (m : Chars → Option (α × Chars)) (s : String) : List (ℕ × α) :=
  matchAllAux m s.toList.length s.toList 0

/-- Global regex replacement (JS `s.replace(re, repl)` with `/g`):
the scanner returns the replacement text and the rest of the input.
Fuel as in `matchAllAux`. -/
def globalReplaceAux (m : Chars → Option (Chars × Chars)) : ℕ → Chars → Chars
  | _, [] => []
  | 0, cs => cs
  | fuel + 1, c :: cs =>
    match m (c :: cs) with
    | some (rep, rest) =>
      if rest.length < cs.length + 1 then
        rep ++ globalReplaceAux m fuel rest
      else
        rep ++ c :: globalReplaceAux m fuel cs
    | none => c :: globalReplaceAux m fuel cs

def globalReplace (m : Chars → Option (Chars × Chars)) (s : String) : String :=
  String.mk (globalReplaceAux m s.toList.length s.toList)

/-- Replace every occurrence of a literal substring (JS `replace` with a
`/g` regex that is a plain literal). -/
def replaceAllLit (s pat rep : String) : String :=
  globalReplace (fun cs => (eatLit pat.toList cs).map (fun rest => (rep.toList, rest))) s

/-- Replace the first occurrence of a literal substring
(JS `s.replace(stringPattern, rep)`). -/
def replaceFirstLit (s pat rep : String) : String :=
  let cl := s.toList
  match firstMatchAux (fun cs => eatLit pat.toList cs) cl 0 with
  | some (i, rest) => String.mk (cl.take i ++ rep.toList ++ rest)
  | none => s

/-! ## Data model (`validators.ts` types) -/

inductive Severity
  | critical
  | high
  | medium
deriving DecidableEq, Repr

structure Violation where
  file : String
  line : ℕ
  rule : String
  message : String
  severity : Severity
  fix : Option String := none
deriving DecidableEq, Repr

structure Warning where
  file : String
  line : ℕ
  rule : String
  message : String
deriving DecidableEq, Repr

structure ValidationResult where
  sopFile : String
  metric : String
  score : ℚ
  passed : Bool
  violations : List Violation
  warnings : List Warning
  suggestions : List String
deriving DecidableEq, Repr

/-- `ValidationContext`: the ordered `fileContents` map of
filename → content (`files` is its key list; the optional `changedLines`
field is never read by any validator and is omitted). -/
abbrev ValidationContext := List (String × String)

/-! ## `metrics-config.ts` -/

structure Thresholds where
  pass : ℚ
  warn : ℚ
  fail : ℚ
deriving DecidableEq, Repr

/-- `MetricDefinition`.  The inert documentation fields `description` and
`invariants` (plain strings, never read by any computation) are omitted. -/
structure MetricDefinition where
  name : String
  displayName : String
  sopFile : String
  weight : ℚ
  blockOnFail : Bool
  thresholds : Thresholds
deriving DecidableEq, Repr

def METRIC_DEFINITIONS : List MetricDefinition :=
  [ { name := "supabase-auth", displayName := "Supabase Auth Compliance",
      sopFile := "2-supabase", weight := 15/100, blockOnFail := true,
      thresholds := { pass := 1, warn := 95/100, fail := 9/10 } },
    { name := "tenant-isolation", displayName := "Tenant Isolation",
      sopFile := "2-supabase", weight := 15/100, blockOnFail := true,
      thresholds := { pass := 1, warn := 95/100, fail := 9/10 } },
    { name := "audit-logging", displayName := "Audit Log Coverage",
      sopFile := "2-supabase", weight := 5/100, blockOnFail := false,
      thresholds := { pass := 1, warn := 8/10, fail := 5/10 } },
    { name := "prisma-queries", displayName := "Prisma Query Compliance",
      sopFile := "3-database-prisma", weight := 15/100, blockOnFail := true,
      thresholds := { pass := 1, warn := 9/10, fail := 8/10 } },
    { name := "transactions", displayName := "Transaction Compliance",
      sopFile := "3-database-prisma", weight := 10/100, blockOnFail := true,
      thresholds := { pass := 1, warn := 9/10, fail := 8/10 } },
    { name := "code-safety", displayName := "Code Safety Patterns",
      sopFile := "4-code-safety-patterns", weight := 5/100, blockOnFail := false,
      thresholds := { pass := 1, warn := 8/10, fail := 6/10 } },
    { name := "exception-types", displayName := "Exception Type Compliance",
      sopFile := "5-error-handling-logging", weight := 10/100, blockOnFail := false,
      thresholds := { pass := 95/100, warn := 85/100, fail := 7/10 } },
    { name := "logging", displayName := "Logging Compliance",
      sopFile := "5-error-handling-logging", weight := 5/100, blockOnFail := false,
      thresholds := { pass := 1, warn := 8/10, fail := 6/10 } },
    { name := "external-services", displayName := "External Service Patterns",
      sopFile := "6-external-services-timing", weight := 5/100, blockOnFail := false,
      thresholds := { pass := 1, warn := 7/10, fail := 5/10 } },
    { name := "job-processing", displayName := "Job Processing Compliance",
      sopFile := "7-queue-job-processing", weight := 5/100, blockOnFail := false,
      thresholds := { pass := 1, warn := 7/10, fail := 5/10 } },
    { name := "api-design", displayName := "API Design Compliance",
      sopFile := "8-api-design-patterns", weight := 5/100, blockOnFail := true,
      thresholds := { pass := 1, warn := 9/10, fail := 8/10 } },
    { name := "code-quality", displayName := "Code Quality",
      sopFile := "9-testing-code-quality", weight := 5/100, blockOnFail := false,
      thresholds := { pass := 1, warn := 7/10, fail := 5/10 } } ]

structure GatingConfig where
  minimumScore : ℚ
  blockOnBlockers : Bool
  failOnWarnings : Bool
  maxBlockers : ℕ
  maxWarnings : ℕ
deriving DecidableEq, Repr

def DEFAULT_GATING_CONFIG : GatingConfig :=
  { minimumScore := 85/100, blockOnBlockers := true, failOnWarnings := false,
    maxBlockers := 0, maxWarnings := 50 }

def STRICT_GATING_CONFIG : GatingConfig :=
  { minimumScore := 95/100, blockOnBlockers := true, failOnWarnings := true,
    maxBlockers := 0, maxWarnings := 0 }

/-- The `scores` argument of `calculateWeightedScore`/`evaluateGating`:
a JS `Map<ValidatorName, number>` modelled as an association list in
insertion order (keys unique). -/
abbrev ScoresMap := List (String × ℚ)

/-- JS `Map.prototype.get`. -/
def mapGet (scores : ScoresMap) (k : String) : Option ℚ :=
  (scores.find? (fun p => p.1 = k)).map (fun p => p.2)

def getBlockingMetrics : List MetricDefinition :=
  METRIC_DEFINITIONS.filter (fun m => m.blockOnFail)

/-- `calculateWeightedScore`: fold over `METRIC_DEFINITIONS` accumulating
`weightedSum` and `totalWeight` over the metrics present in the map. -/
def calculateWeightedScore (scores : ScoresMap) : ℚ :=
  let acc := METRIC_DEFINITIONS.foldl
    (fun (acc : ℚ × ℚ) m =>
      match mapGet scores m.name with
      | some score => (acc.1 + score * m.weight, acc.2 + m.weight)
      | none => acc)
    (0, 0)
  if 0 < acc.2 then acc.1 / acc.2 else 1

/-- The failure reason returned by `evaluateGating`, as structured data.
The source renders each constructor into a fixed message template
(blocker count, warning count, blocking-metric name and score, or total
score against the minimum). -/
inductive GatingReason
  | blockers (blockerCount maxBlockers : ℕ)
  | warningCeiling (warningCount maxWarnings : ℕ)
  | blockingMetric (displayName : String) (score failThreshold : ℚ)
  | totalScore (total minimum : ℚ)
deriving DecidableEq, Repr

structure GatingOutcome where
  passed : Bool
  reason : Option GatingReason
deriving DecidableEq, Repr

/-- The `for (const metric of getBlockingMetrics())` loop of
`evaluateGating`: first blocking metric whose present score is below its
`fail` threshold. -/
def checkBlockingMetrics (scores : ScoresMap) : List MetricDefinition → Option GatingReason
  | [] => none
  | m :: rest =>
    match mapGet scores m.name with
    | some score =>
      if score < m.thresholds.fail then
        some (.blockingMetric m.displayName score m.thresholds.fail)
      else checkBlockingMetrics scores rest
    | none => checkBlockingMetrics scores rest

def evaluateGating (scores : ScoresMap) (blockerCount warningCount : ℕ)
    (config : GatingConfig) : GatingOutcome :=
  if config.blockOnBlockers = true ∧ config.maxBlockers < blockerCount then
    { passed := false, reason := some (.blockers blockerCount config.maxBlockers) }
  else if config.failOnWarnings = true ∧ config.maxWarnings < warningCount then
    { passed := false, reason := some (.warningCeiling warningCount config.maxWarnings) }
  else
    match checkBlockingMetrics scores getBlockingMetrics with
    | some reason => { passed := false, reason := some reason }
    | none =>
      let totalScore := calculateWeightedScore scores
      if totalScore < config.minimumScore then
        { passed := false, reason := some (.totalScore totalScore config.minimumScore) }
      else { passed := true, reason := none }

/-! ## Scanners for the regexes of `validators.ts` -/

/-- Substring containment on a character list. -/
def containsC (cs : Chars) (pat : String) : Bool :=
  pat.toList.isEmpty || cs.tails.any (fun t => pat.toList.isPrefixOf t)

/-- Regex `.?` (optional single character other than a newline),
greedy, followed by continuation `k`. -/
def optAnyThen (k : Chars → Option Chars) (cs : Chars) : Option Chars :=
  match cs with
  | c :: r => if c = '\n' then k cs else ((k r).orElse (fun _ => k (c :: r)))
  | [] => k []

/-- Regex `jwt\.decode\(|decodeJwt\(` matched at the current position. -/
def reJwtDecodeAt (cs : Chars) : Bool :=
  (lit "jwt.decode(" cs).isSome || (lit "decodeJwt(" cs).isSome

/-- Regex `logger\.(log|debug|error|warn)\(.*token` with `/i`, matched at
the current position of the lower-cased line. -/
def reLoggerTokenAt (cs : Chars) : Bool :=
  match (lit "logger." cs).bind (fun r =>
      (altLits ["log", "debug", "error", "warn"] r).bind (fun p => lit "(" p.2)) with
  | some rest => containsC rest "token"
  | none => false

/-- Regex `console\.(log|debug|error|warn)\(.*jwt` with `/i`, matched at
the current position of the lower-cased line. -/
def reConsoleJwtAt (cs : Chars) : Bool :=
  match (lit "console." cs).bind (fun r =>
      (altLits ["log", "debug", "error", "warn"] r).bind (fun p => lit "(" p.2)) with
  | some rest => containsC rest "jwt"
  | none => false

/-- Regex `service.?role.?key` with `/i`, matched at the current position
of the lower-cased line. -/
def reServiceRoleKeyAt (cs : Chars) : Bool :=
  ((lit "service" cs).bind (optAnyThen (fun r =>
      (lit "role" r).bind (optAnyThen (fun r2 => lit "key" r2))))).isSome

/-- Regex `@UseGuards\(([^)]+)\)` (with `/g`): capture the guard list. -/
def reUseGuardsAt (cs : Chars) : Option (String × Chars) :=
  (lit "@UseGuards(" cs).bind (fun r =>
    (classPlus (fun c => c ≠ ')') r).bind (fun p =>
      (lit ")" p.2).map (fun rest => (String.mk p.1, rest))))

/-- The `for (let i = index; i < Math.min(index + n, lines.length); i++)
{ block += lines[i]; if (stop(lines[i])) break; }` look-ahead loop used by
several validators: concatenation without separator. -/
def collectBlock : List String → ℕ → (String → Bool) → String
  | [], _, _ => ""
  | l :: rest, n, stop =>
    if n = 0 then ""
    else if stop l then l
    else l ++ collectBlock rest (n - 1) stop

/-! ## `validateSupabaseAuth` -/

/-- Per-line violations of `validateSupabaseAuth`. -/
def supabaseAuthLineViols (file : String) (lineNum : ℕ) (line : String) : List Violation :=
  let low := lowerC line.toList
  (if testAny reJwtDecodeAt line && !sContains line "verify" then
    [{ file := file, line := lineNum, rule := "INV-SUPABASE-1",
       message := "Decode-only JWT handling detected. Must use JWKS validation.",
       severity := .critical, fix := some "Replace with Supabase JWKS verification" }]
   else []) ++
  (if testAnyC reLoggerTokenAt low || testAnyC reConsoleJwtAt low then
    [{ file := file, line := lineNum, rule := "INV-SUPABASE-8",
       message := "Potential JWT/token logging detected.",
       severity := .critical, fix := some "Remove token from log statement" }]
   else []) ++
  (if testAnyC reServiceRoleKeyAt low && sContains (String.mk (lowerC file.toList)) "client" then
    [{ file := file, line := lineNum, rule := "INV-SUPABASE-1",
       message := "Service-role key may be exposed client-side.",
       severity := .critical, fix := none }]
   else [])

/-- The guard-order check on `.controller.ts` files. -/
def supabaseAuthGuardWarnings (file content : String) : List Warning :=
  if sEndsWith file ".controller.ts" then
    (matchAll reUseGuardsAt content).bind (fun m =>
      let guards := m.2
      if (sContains guards "RolesGuard" || sContains guards "PermissionsGuard") &&
         (!sContains guards "JwtAuthGuard" && !sContains content "@UseGuards(JwtAuthGuard)") then
        [{ file := file, line := lineOfIndex content m.1, rule := "INV-SUPABASE-2",
           message := "RolesGuard/PermissionsGuard used without explicit JwtAuthGuard." }]
      else [])
  else []

def validateSupabaseAuth (ctx : ValidationContext) : ValidationResult :=
  let violations := ctx.bind (fun f =>
    ((jsLines f.2).enum.map (fun p => supabaseAuthLineViols f.1 (p.1 + 1) p.2)).join)
  let warnings := ctx.bind (fun f => supabaseAuthGuardWarnings f.1 f.2)
  let score : ℚ :=
    if violations.length = 0 then 1
    else max 0 (1 - (violations.length : ℚ) * (2/10))
  { sopFile := "2-supabase", metric := "supabase-auth-compliance",
    score := score,
    passed := (violations.filter (fun v => v.severity = .critical)).length = 0,
    violations := violations, warnings := warnings, suggestions := [] }

/-! ## `validateTenantIsolation` -/

def softDeleteEntities : List String :=
  ["organizations", "organization_users", "organization_roles", "teams",
   "rubrics", "role_plays", "tracks"]

/-- Regex `prisma\.(\w+)\.(findMany|findFirst|findUnique|count|aggregate)`:
capture the entity name. -/
def rePrismaQueryAt (cs : Chars) : Option String :=
  (lit "prisma." cs).bind (fun r =>
    (classPlus isWordChar r).bind (fun p =>
      ((lit "." p.2).bind (fun r2 =>
        altLits ["findMany", "findFirst", "findUnique", "count", "aggregate"] r2)).map
        (fun _ => String.mk p.1)))

/-- Regex `cache\.(get|set|del)\(` or `cacheManager\.(get|set|del)\(`. -/
def reCacheCallAt (cs : Chars) : Bool :=
  ((altLits ["cache.", "cacheManager."] cs).bind (fun p =>
    (altLits ["get", "set", "del"] p.2).bind (fun p2 => lit "(" p2.2))).isSome

/-- Regex `['"]([\w:]+)['"]`: capture the quoted key. -/
def reQuotedKeyAt (cs : Chars) : Option String :=
  (oneOf isQuote cs).bind (fun p =>
    (classPlus (fun c => isWordChar c || c = ':') p.2).bind (fun q =>
      (oneOf isQuote q.2).map (fun _ => String.mk q.1)))

/-- Per-line findings of `validateTenantIsolation`:
`(violations, warnings)`. -/
def tenantIsolationLine (file : String) (lines : List String) (idx : ℕ)
    (line : String) : List Violation × List Warning :=
  let lineNum := idx + 1
  let queryFindings : List Violation × List Warning :=
    match firstMatch rePrismaQueryAt line with
    | some (_, entity) =>
      let whereBlock := collectBlock (lines.drop idx) 10
        (fun l => sContains l "\x7d);" || sContains l ")];")
      let orgWarn :=
        if !sContains whereBlock "organization_id" && !sContains whereBlock "org_id" &&
           entity ≠ "internal_users" && entity ≠ "evaluation_model_configs" then
          [{ file := file, line := lineNum, rule := "INV-SUPABASE-4",
             message := "Query on " ++ entity ++ " may be missing organization_id filter." }]
        else []
      let sdViol :=
        if softDeleteEntities.any (fun e => sContains entity e) &&
           !sContains whereBlock "deleted_at" then
          [{ file := file, line := lineNum, rule := "INV-PRISMA-SOFT-DELETE",
             message := "Query on " ++ entity ++ " missing deleted_at: null filter.",
             severity := .high, fix := some "Add deleted_at: null to where clause" }]
        else []
      (sdViol, orgWarn)
    | none => ([], [])
  let cacheWarn : List Warning :=
    if testAnyC reCacheCallAt line.toList then
      match firstMatch reQuotedKeyAt line with
      | some (_, key) =>
        if !sContains key "org" && !sContains key "$\x7b" then
          [{ file := file, line := lineNum, rule := "INV-SUPABASE-6",
             message := "Cache key may not include organization context." }]
        else []
      | none => []
    else []
  (queryFindings.1, queryFindings.2 ++ cacheWarn)

def validateTenantIsolation (ctx : ValidationContext) : ValidationResult :=
  let perFile := ctx.map (fun f =>
    let lines := jsLines f.2
    let perLine := lines.enum.map (fun p => tenantIsolationLine f.1 lines p.1 p.2)
    ((perLine.map Prod.fst).join, (perLine.map Prod.snd).join))
  let violations := (perFile.map Prod.fst).join
  let warnings := (perFile.map Prod.snd).join
  let criticalViolations := (violations.filter (fun v => v.severity = .critical)).length
  let highViolations := (violations.filter (fun v => v.severity = .high)).length
  let score : ℚ :=
    max 0 (1 - (criticalViolations : ℚ) * (3/10) - (highViolations : ℚ) * (15/100))
  { sopFile := "2-supabase", metric := "tenant-isolation",
    score := score,
    passed := criticalViolations = 0 && highViolations = 0,
    violations := violations, warnings := warnings, suggestions := [] }

/-! ## `validatePrismaQueries` -/

/-- The brace-counting look-ahead loop (`validatePrismaQueries`, N+1
check): concatenate up to `n` lines, incrementing the balance once per
line containing `{` and decrementing once per line containing `}`,
stopping when the balance returns to zero after a `{` was seen. -/
def collectLoopBlock : List String → ℕ → ℤ → Bool → String
  | [], _, _, _ => ""
  | l :: rest, n, bc, started =>
    if n = 0 then ""
    else
      let started' := started || sContains l "\x7b"
      let bc' := bc + (if sContains l "\x7b" then 1 else 0) -
        (if sContains l "\x7d" then 1 else 0)
      if started' && bc' = 0 then l
      else l ++ collectLoopBlock rest (n - 1) bc' started'

/-- Regex `prisma\.\w+\.(findFirst|findUnique|findMany|count)`. -/
def rePrismaFindAt (cs : Chars) : Bool :=
  ((lit "prisma." cs).bind (fun r =>
    (classPlus isWordChar r).bind (fun p =>
      (lit "." p.2).bind (fun r2 =>
        altLits ["findFirst", "findUnique", "findMany", "count"] r2)))).isSome

/-- Regex `await\s+.*prisma\.\w+\.(findFirst|findUnique|findMany|count)`
on a block that contains no newline (it is a separator-less
concatenation of lines). -/
def reAwaitPrismaFind (block : String) : Bool :=
  testAnyC (fun cs =>
    match lit "await" cs with
    | some r =>
      match r with
      | c :: rest => isWS c && testAnyC rePrismaFindAt rest
      | [] => false
    | none => false) block.toList

/-- Regex `for\s*\(|\.forEach\(|\.map\(`. -/
def reLoopStartAt (cs : Chars) : Bool :=
  ((lit "for" cs).bind (fun r => lit "(" (wsStar r))).isSome ||
  (lit ".forEach(" cs).isSome || (lit ".map(" cs).isSome

/-- Regex `\.findMany\([^)]*\)\.length`. -/
def reFindManyLengthAt (cs : Chars) : Bool :=
  ((lit ".findMany(" cs).bind (fun r =>
    lit ").length" (classStar (fun c => c ≠ ')') r).2)).isSome

/-- Regex `\.length\s*$` (anchored at the end of the line). -/
def reLengthEOLAt (cs : Chars) : Bool :=
  match lit ".length" cs with
  | some r => (wsStar r).isEmpty
  | none => false

/-- Regex `include:\s*\x7b`. -/
def reIncludeAt (cs : Chars) : Bool :=
  ((lit "include:" cs).bind (fun r => lit "\x7b" (wsStar r))).isSome

/-- Count of `/:\s*true/g` matches (JS `(s.match(re) || []).length`). -/
def countColonTrue (s : String) : ℕ :=
  (matchAll (fun cs => (lit ":" cs).bind (fun r =>
    (lit "true" (wsStar r)).map (fun rest => ((), rest)))) s).length

/-- Regex `prisma\.(organizations|teams|rubrics|role_plays)\.delete\(`:
capture the entity. -/
def reHardDeleteAt (cs : Chars) : Option String :=
  (lit "prisma." cs).bind (fun r =>
    (altLits ["organizations", "teams", "rubrics", "role_plays"] r).bind (fun p =>
      (lit ".delete(" p.2).map (fun _ => p.1)))

/-- Per-line findings of `validatePrismaQueries`:
`(violations, warnings, suggestions)`. -/
def prismaQueriesLine (file : String) (lines : List String) (idx : ℕ)
    (line : String) : List Violation × List Warning × List String :=
  let lineNum := idx + 1
  let findManyFindings : List Violation × List Warning :=
    if sContains line ".findMany(" then
      let queryBlock := collectBlock (lines.drop idx) 15 (fun l => sContains l "\x7d);")
      let orderViol :=
        if !sContains queryBlock "orderBy" then
          [{ file := file, line := lineNum, rule := "INV-PRISMA-ORDERBY",
             message := "findMany query missing orderBy clause.",
             severity := .medium,
             fix := some "Add orderBy: \x7b created_at: \"desc\" \x7d or appropriate field" }]
        else []
      let pagWarn :=
        if !sContains queryBlock "take" && !sContains queryBlock "skip" then
          [{ file := file, line := lineNum, rule := "INV-PRISMA-PAGINATION",
             message := "findMany query may need pagination (take/skip)." }]
        else []
      (orderViol, pagWarn)
    else ([], [])
  let loopViol : List Violation :=
    if testAnyC reLoopStartAt line.toList then
      let loopBlock := collectLoopBlock (lines.drop idx) 30 0 false
      if reAwaitPrismaFind loopBlock then
        [{ file := file, line := lineNum, rule := "INV-PRISMA-N+1",
           message := "Potential N+1 query detected: Prisma query inside loop.",
           severity := .high,
           fix := some "Use batch query with \x7b in: [...ids] \x7d before the loop" }]
      else []
    else []
  let countViol : List Violation :=
    if testAnyC reFindManyLengthAt line.toList || testAnyC reLengthEOLAt line.toList then
      let prevLines := joinNl (jsSlice lines (idx - 5) (idx + 1))
      if sContains prevLines "findMany" && sContains line ".length" then
        [{ file := file, line := lineNum, rule := "INV-PRISMA-COUNT",
           message := "Using findMany().length instead of count() for totals.",
           severity := .medium,
           fix := some "Use prisma.model.count(\x7b where \x7d) instead" }]
      else []
    else []
  let includeSugg : List String :=
    if testAnyC reIncludeAt line.toList then
      let nextLines := joinNl (jsSlice lines idx (min (idx + 10) lines.length))
      if countColonTrue nextLines = 1 then
        [file ++ ":" ++ toString lineNum ++
         " - Consider using select instead of include for single relation"]
      else []
    else []
  (findManyFindings.1 ++ loopViol ++ countViol, findManyFindings.2, includeSugg)

/-- Whole-file hard-delete check of `validatePrismaQueries`. -/
def prismaQueriesHardDelete (file content : String) : List Violation :=
  match firstMatch reHardDeleteAt content with
  | some (i, entity) =>
    [{ file := file, line := lineOfIndex content i, rule := "INV-PRISMA-SOFT-DELETE",
       message := "Hard delete on " ++ entity ++ " - use soft delete (deleted_at).",
       severity := .critical, fix := none }]
  | none => []

def validatePrismaQueries (ctx : ValidationContext) : ValidationResult :=
  let perFile := ctx.map (fun f =>
    let lines := jsLines f.2
    let perLine := lines.enum.map (fun p => prismaQueriesLine f.1 lines p.1 p.2)
    ((perLine.map (fun t => t.1)).flatten ++ prismaQueriesHardDelete f.1 f.2,
     (perLine.map (fun t => t.2.1)).flatten,
     (perLine.map (fun t => t.2.2)).flatten))
  let violations := (perFile.map (fun t => t.1)).flatten
  let warnings := (perFile.map (fun t => t.2.1)).flatten
  let suggestions := (perFile.map (fun t => t.2.2)).flatten
  let criticalViolations := (violations.filter (fun v => v.severity = .critical)).length
  let highViolations := (violations.filter (fun v => v.severity = .high)).length
  let mediumViolations := (violations.filter (fun v => v.severity = .medium)).length
  let score : ℚ :=
    max 0 (1 - (criticalViolations : ℚ) * (3/10) - (highViolations : ℚ) * (15/100) -
      (mediumViolations : ℚ) * (5/100))
  { sopFile := "3-database-prisma", metric := "prisma-query-compliance",
    score := score,
    passed := criticalViolations = 0 && highViolations = 0,
    violations := violations, warnings := warnings, suggestions := suggestions }

/-! ## `validateTransactions` -/

/-- Regex `async\s+(\w+)\s*\([^)]*\)\s*(?::\s*[^\x7b]+)?\s*\x7b` (with
`/g`): capture the function name, consuming through the opening brace. -/
def reAsyncFuncAt (cs : Chars) : Option (String × Chars) :=
  (lit "async" cs).bind (fun r =>
    (wsPlus r).bind (fun r2 =>
      (classPlus isWordChar r2).bind (fun p =>
        (lit "(" (wsStar p.2)).bind (fun r4 =>
          (lit ")" (classStar (fun c => c ≠ ')') r4).2).bind (fun r6 =>
            match wsStar r6 with
            | '\x7b' :: rest => some (String.mk p.1, rest)
            | ':' :: rest =>
              let q := classStar (fun c => c ≠ '\x7b') rest
              if q.1.isEmpty then none
              else (lit "\x7b" q.2).map (fun rest2 => (String.mk p.1, rest2))
            | _ => none)))))

/-- The character-level brace scan of `validateTransactions`: starting at
`funcStart`, find the index at which the running brace balance returns to
zero after an opening brace was seen. -/
def braceScanC : Chars → ℕ → ℤ → Bool → Option ℕ
  | [], _, _, _ => none
  | c :: rest, i, bc, started =>
    let started' := started || (c = '\x7b')
    let bc' := bc + (if c = '\x7b' then 1 else 0) - (if c = '\x7d' then 1 else 0)
    if started' && bc' = 0 then some i
    else braceScanC rest (i + 1) bc' started'

/-- Regex `prisma\.(\w+)\.method\(` for a mutation method: capture the
table name. -/
def rePrismaMutAt (method : String) (cs : Chars) : Option (String × Chars) :=
  (lit "prisma." cs).bind (fun r =>
    (classPlus isWordChar r).bind (fun p =>
      (lit ("." ++ method ++ "(") p.2).map (fun rest => (String.mk p.1, rest))))

/-- The per-function check of `validateTransactions` at one function
match `(funcStart, funcName)`. -/
def transactionsFuncViols (file content : String) (funcStart : ℕ)
    (funcName : String) : List Violation :=
  let cl := content.toList
  let funcEnd := (braceScanC (cl.drop funcStart) funcStart 0 false).getD funcStart
  let funcBody := String.mk ((cl.drop funcStart).take (funcEnd - funcStart))
  let createMatches := matchAll (rePrismaMutAt "create") funcBody
  let updateMatches := matchAll (rePrismaMutAt "update") funcBody
  let deleteMatches := matchAll (rePrismaMutAt "delete") funcBody
  let allMutations := createMatches ++ updateMatches ++ deleteMatches
  let uniqueTables := (allMutations.map (fun m => m.2)).dedup
  if uniqueTables.length > 1 && !sContains funcBody "$transaction" then
    [{ file := file, line := lineOfIndex content funcStart,
       rule := "INV-PRISMA-TRANSACTION",
       message := "Function " ++ funcName ++ " has multi-table mutations without $transaction.",
       severity := .high,
       fix := some "Wrap related writes in prisma.$transaction(async (tx) => \x7b ... \x7d)" }]
  else []

def validateTransactions (ctx : ValidationContext) : ValidationResult :=
  let violations := ctx.flatMap (fun f =>
    (matchAll reAsyncFuncAt f.2).flatMap (fun m =>
      transactionsFuncViols f.1 f.2 m.1 m.2))
  let score : ℚ :=
    if violations.length = 0 then 1
    else max 0 (1 - (violations.length : ℚ) * (2/10))
  { sopFile := "3-database-prisma", metric := "transaction-compliance",
    score := score,
    passed := violations.length = 0,
    violations := violations, warnings := [], suggestions := [] }

/-! ## `validateCodeSafetyPatterns` -/

/-- Regex `step:\s*['"][\w_]*complete['"]`. -/
def reStepCompleteAt (cs : Chars) : Bool :=
  match lit "step:" cs with
  | some r =>
    match oneOf isQuote (wsStar r) with
    | some (_, r2) =>
      let w := classStar isWordChar r2
      "complete".toList.isSuffixOf w.1 && (oneOf isQuote w.2).isSome
    | none => false
  | none => false

/-- Regex `status.*complete` with `/i` on the lower-cased line. -/
def reStatusCompleteAt (cs : Chars) : Bool :=
  match lit "status" cs with
  | some r => containsC r "complete"
  | none => false

/-- Regex `await\s+this\.\w+\(`. -/
def reAwaitThisCallAt (cs : Chars) : Bool :=
  ((lit "await" cs).bind (fun r =>
    (wsPlus r).bind (fun r2 =>
      (lit "this." r2).bind (fun r3 =>
        (classPlus isWordChar r3).bind (fun p => lit "(" p.2))))).isSome

/-- Regex `retryOperation\(|setTimeout\(|setInterval\(|\)\s*=>\s*\x7b`. -/
def reClosureStartAt (cs : Chars) : Bool :=
  (lit "retryOperation(" cs).isSome || (lit "setTimeout(" cs).isSome ||
  (lit "setInterval(" cs).isSome ||
  ((lit ")" cs).bind (fun r =>
    (lit "=>" (wsStar r)).bind (fun r2 => lit "\x7b" (wsStar r2)))).isSome

/-- Regex `if\s*\(\s*!(\w+)\s*\)` (with `/g`): capture the null-checked
variable name. -/
def reNullCheckAt (cs : Chars) : Option (String × Chars) :=
  (lit "if" cs).bind (fun r =>
    (lit "(" (wsStar r)).bind (fun r2 =>
      (lit "!" (wsStar r2)).bind (fun r3 =>
        (classPlus isWordChar r3).bind (fun p =>
          (lit ")" (wsStar p.2)).map (fun rest => (String.mk p.1, rest))))))

/-- Per-line findings of `validateCodeSafetyPatterns`:
`(warnings, suggestions)` (this validator produces no violations). -/
def codeSafetyLine (file : String) (lines : List String) (idx : ℕ)
    (line : String) : List Warning × List String :=
  let lineNum := idx + 1
  let statusWarn : List Warning :=
    if testAnyC reStepCompleteAt line.toList ||
       testAnyC reStatusCompleteAt (lowerC line.toList) then
      let prevLines := joinNl (jsSlice lines (idx - 10) idx)
      if sContains prevLines "updateStatus" || sContains prevLines "setStatus" ||
         sContains prevLines "progress" then
        let nextLines := joinNl (jsSlice lines (idx + 1) (min (idx + 10) lines.length))
        if testAny reAwaitThisCallAt nextLines || sContains nextLines "fetch" ||
           sContains nextLines "prisma." then
          [{ file := file, line := lineNum, rule := "INV-STATUS-ACCURACY",
             message := "Status set to \"complete\" before operation may have finished." }]
        else []
      else []
    else []
  let closureSuggs : List String :=
    if testAnyC reClosureStartAt line.toList then
      let prevLines := joinNl (jsSlice lines (idx - 15) idx)
      let nullChecks := matchAll reNullCheckAt prevLines
      if nullChecks.length ≠ 0 then
        let closureBody := joinNl (jsSlice lines idx (min (idx + 10) lines.length))
        nullChecks.flatMap (fun m =>
          let varName := m.2
          if sContains closureBody (varName ++ ".") then
            [file ++ ":" ++ toString lineNum ++ " - Variable \x27" ++ varName ++
             "\x27 used in closure after null check. Consider capturing value before closure."]
          else [])
      else []
    else []
  (statusWarn, closureSuggs)

def validateCodeSafetyPatterns (ctx : ValidationContext) : ValidationResult :=
  let perFile := ctx.map (fun f =>
    let lines := jsLines f.2
    let perLine := lines.enum.map (fun p => codeSafetyLine f.1 lines p.1 p.2)
    ((perLine.map Prod.fst).flatten, (perLine.map Prod.snd).flatten))
  let violations : List Violation := []
  let warnings := (perFile.map Prod.fst).flatten
  let suggestions := (perFile.map Prod.snd).flatten
  let score : ℚ :=
    if violations.length = 0 then 1
    else max 0 (1 - (violations.length : ℚ) * (15/100))
  { sopFile := "4-code-safety-patterns", metric := "code-safety-compliance",
    score := score,
    passed := (violations.filter (fun v => v.severity = .critical)).length = 0,
    violations := violations, warnings := warnings, suggestions := suggestions }

/-! ## `validateExceptionTypes` -/

def nestExceptions : List String :=
  ["NotFoundException", "BadRequestException", "ForbiddenException",
   "UnauthorizedException", "ConflictException", "UnprocessableEntityException",
   "InternalServerErrorException", "BadGatewayException", "ServiceUnavailableException"]

/-- Regex `throw\s+new\s+Error\(`. -/
def reThrowErrorAt (cs : Chars) : Bool :=
  ((lit "throw" cs).bind (fun r =>
    (wsPlus r).bind (fun r2 =>
      (lit "new" r2).bind (fun r3 =>
        (wsPlus r3).bind (fun r4 => lit "Error(" r4))))).isSome

/-- Regex `console\.(log|debug|error|warn|info)\(`. -/
def reConsoleCallAt (cs : Chars) : Bool :=
  ((lit "console." cs).bind (fun r =>
    (altLits ["log", "debug", "error", "warn", "info"] r).bind (fun p =>
      lit "(" p.2))).isSome

/-- Regex `logger\.(log|debug|error|warn)\(`. -/
def reLoggerCallAt (cs : Chars) : Bool :=
  ((lit "logger." cs).bind (fun r =>
    (altLits ["log", "debug", "error", "warn"] r).bind (fun p =>
      lit "(" p.2))).isSome

/-- Regex `password|secret|token|apiKey|api_key|jwt` with `/i` on the
lower-cased line. -/
def hasSensitiveWord (line : String) : Bool :=
  let low := String.mk (lowerC line.toList)
  sContains low "password" || sContains low "secret" || sContains low "token" ||
  sContains low "apikey" || sContains low "api_key" || sContains low "jwt"

/-- Regex `catch\s*\(\s*(\w+)\s*\)`. -/
def reCatchVarAt (cs : Chars) : Bool :=
  ((lit "catch" cs).bind (fun r =>
    (lit "(" (wsStar r)).bind (fun r2 =>
      (classPlus isWordChar (wsStar r2)).bind (fun p =>
        lit ")" (wsStar p.2))))).isSome

/-- Regex `throw\s+new\s+\w+Exception\(`: the word run after `new` must
end in `Exception` with at least one preceding word character. -/
def reThrowNewExceptionAt (cs : Chars) : Bool :=
  match (lit "throw" cs).bind (fun r =>
      (wsPlus r).bind (fun r2 =>
        (lit "new" r2).bind (fun r3 => wsPlus r3))) with
  | some r4 =>
    let w := classStar isWordChar r4
    "Exception".toList.isSuffixOf w.1 && w.1.length > "Exception".length &&
    (lit "(" w.2).isSome
  | none => false

/-- Per-line findings of `validateExceptionTypes`:
`(violations, warnings, nestCount, genericCount)`. -/
def exceptionTypesLine (file : String) (lines : List String) (idx : ℕ)
    (line : String) : List Violation × List Warning × ℕ × ℕ :=
  let lineNum := idx + 1
  let genericViol : List Violation × ℕ :=
    if testAnyC reThrowErrorAt line.toList then
      ([{ file := file, line := lineNum, rule := "INV-ERROR-TYPE",
          message := "Using generic Error instead of NestJS exception.",
          severity := .medium,
          fix := some "Use NotFoundException, BadRequestException, etc." }], 1)
    else ([], 0)
  let nestCount : ℕ :=
    if nestExceptions.any (fun ex => sContains line ("throw new " ++ ex)) then 1 else 0
  let consoleViol : List Violation :=
    if testAnyC reConsoleCallAt line.toList then
      [{ file := file, line := lineNum, rule := "INV-LOGGER",
         message := "Using console.* instead of NestJS Logger.",
         severity := .medium, fix := some "Use this.logger.log/error/warn/debug" }]
    else []
  let sensitiveViol : List Violation :=
    if testAnyC reLoggerCallAt line.toList then
      if hasSensitiveWord line then
        [{ file := file, line := lineNum, rule := "INV-LOG-SENSITIVE",
           message := "Potential sensitive data in log statement.",
           severity := .critical, fix := none }]
      else []
    else []
  let contextWarn : List Warning :=
    if testAnyC reCatchVarAt line.toList then
      let catchBlock := joinNl (jsSlice lines idx (min (idx + 10) lines.length))
      if testAny reThrowNewExceptionAt catchBlock then
        if !sContains catchBlock ".message" && !sContains catchBlock ".stack" then
          [{ file := file, line := lineNum, rule := "INV-ERROR-CONTEXT",
             message := "Rethrowing exception may lose original error context." }]
        else []
      else []
    else []
  (genericViol.1 ++ consoleViol ++ sensitiveViol, contextWarn, nestCount, genericViol.2)

/-- The per-line results of `validateExceptionTypes` over the whole
context, in file order then line order. -/
def exceptionTypesPerLine (ctx : ValidationContext) :
    List (List Violation × List Warning × ℕ × ℕ) :=
  (ctx.map (fun f =>
    let lines := jsLines f.2
    lines.enum.map (fun p => exceptionTypesLine f.1 lines p.1 p.2))).flatten

def validateExceptionTypes (ctx : ValidationContext) : ValidationResult :=
  let perLine := exceptionTypesPerLine ctx
  let violations := (perLine.map (fun t => t.1)).flatten
  let warnings := (perLine.map (fun t => t.2.1)).flatten
  let nestExceptionCount := (perLine.map (fun t => t.2.2.1)).sum
  let genericErrorCount := (perLine.map (fun t => t.2.2.2)).sum
  let totalThrows := nestExceptionCount + genericErrorCount
  let score : ℚ :=
    if totalThrows = 0 then 1 else (nestExceptionCount : ℚ) / (totalThrows : ℚ)
  { sopFile := "5-error-handling-logging", metric := "exception-type-compliance",
    score := score,
    passed := decide ((9 : ℚ)/10 ≤ score),
    violations := violations, warnings := warnings, suggestions := [] }

/-! ## `validateLogging` -/

/-- Regex `p?` for a character class, greedy, with continuation. -/
def optClassThen (p : Char → Bool) (k : Chars → Option Chars) (cs : Chars) :
    Option Chars :=
  match cs with
  | c :: r => if p c then ((k r).orElse (fun _ => k (c :: r))) else k (c :: r)
  | [] => k []

/-- Regex `this\.logger\.(log|error|warn)\(['"][\w\s]+['"]\s*\)`. -/
def reLoggerNoContextAt (cs : Chars) : Bool :=
  ((lit "this.logger." cs).bind (fun r =>
    (altLits ["log", "error", "warn"] r).bind (fun p =>
      (lit "(" p.2).bind (fun r2 =>
        (oneOf isQuote r2).bind (fun q =>
          (classPlus (fun c => isWordChar c || isWS c) q.2).bind (fun w =>
            (oneOf isQuote w.2).bind (fun q2 => lit ")" (wsStar q2.2)))))))).isSome

/-- Regex `['"]sk-[a-zA-Z0-9]+['"]`. -/
def reSkKeyAt (cs : Chars) : Bool :=
  ((oneOf isQuote cs).bind (fun q =>
    (lit "sk-" q.2).bind (fun r =>
      (classPlus Char.isAlphanum r).bind (fun w => (oneOf isQuote w.2).map (fun _ => ()))))).isSome

/-- Regex `api[_-]?key\s*[:=]\s*['"][^'"]+['"]`. -/
def reApiKeyAt (cs : Chars) : Bool :=
  ((lit "api" cs).bind (optClassThen (fun c => c = '_' || c = '-') (fun r =>
    (lit "key" r).bind (fun r2 =>
      (oneOf (fun c => c = ':' || c = '=') (wsStar r2)).bind (fun e =>
        (oneOf isQuote (wsStar e.2)).bind (fun q =>
          (classPlus (fun c => !isQuote c) q.2).bind (fun w =>
            (oneOf isQuote w.2).map (fun _ => [])))))))).isSome

/-- Regex `process\.env\.(\w+)`: capture the variable name. -/
def reProcessEnvAt (cs : Chars) : Option String :=
  (lit "process.env." cs).bind (fun r =>
    (classPlus isWordChar r).map (fun p => String.mk p.1))

/-- Per-line findings of `validateLogging`:
`(violations, warnings, suggestions)`. -/
def loggingLine (file : String) (lines : List String) (idx : ℕ)
    (line : String) : List Violation × List Warning × List String :=
  let lineNum := idx + 1
  let contextWarn : List Warning :=
    if testAnyC reLoggerNoContextAt line.toList then
      if !sContains line "$\x7b" && !sContains line "+ " && !sContains line ", \x7b" then
        [{ file := file, line := lineNum, rule := "INV-LOG-CONTEXT",
           message := "Log statement may be missing context (entity IDs, etc.)." }]
      else []
    else []
  let secretViol : List Violation :=
    if testAnyC reSkKeyAt line.toList || testAnyC reApiKeyAt line.toList then
      [{ file := file, line := lineNum, rule := "INV-HARDCODED-SECRET",
         message := "Potential hardcoded secret detected.",
         severity := .critical, fix := none }]
    else []
  let envSugg : List String :=
    match firstMatch reProcessEnvAt line with
    | some (_, envVar) =>
      let nextLines := joinNl (jsSlice lines idx (min (idx + 5) lines.length))
      if !sContains nextLines ("if (!" ++ envVar) && !sContains nextLines "?? " &&
         !sContains nextLines "|| " then
        [file ++ ":" ++ toString lineNum ++ " - Environment variable " ++ envVar ++
         " used without validation."]
      else []
    | none => []
  (secretViol, contextWarn, envSugg)

def validateLogging (ctx : ValidationContext) : ValidationResult :=
  let perFile := ctx.map (fun f =>
    let lines := jsLines f.2
    let initViol : List Violation :=
      if sEndsWith f.1 ".service.ts" then
        if !sContains f.2 "private readonly logger = new Logger(" &&
           !sContains f.2 "private logger = new Logger(" then
          if sContains f.2 "this.logger" then
            [{ file := f.1, line := 1, rule := "INV-LOGGER-INIT",
               message := "Service uses this.logger but Logger is not properly initialized.",
               severity := .medium, fix := none }]
          else []
        else []
      else []
    let perLine := lines.enum.map (fun p => loggingLine f.1 lines p.1 p.2)
    (initViol ++ (perLine.map (fun t => t.1)).flatten,
     (perLine.map (fun t => t.2.1)).flatten,
     (perLine.map (fun t => t.2.2)).flatten))
  let violations := (perFile.map (fun t => t.1)).flatten
  let warnings := (perFile.map (fun t => t.2.1)).flatten
  let suggestions := (perFile.map (fun t => t.2.2)).flatten
  let criticalViolations := (violations.filter (fun v => v.severity = .critical)).length
  let score : ℚ :=
    if criticalViolations = 0 then 1
    else max 0 (1 - (criticalViolations : ℚ) * (3/10))
  { sopFile := "5-error-handling-logging", metric := "logging-compliance",
    score := score,
    passed := criticalViolations = 0,
    violations := violations, warnings := warnings, suggestions := suggestions }

/-! ## `validateExternalServicePatterns` -/

/-- Regex `httpService\.(get|post|put|patch|delete)\(|axios\.(…)\(|fetch\(`. -/
def reExternalCallAt (cs : Chars) : Bool :=
  ((altLits ["httpService.", "axios."] cs).bind (fun p =>
    (altLits ["get", "post", "put", "patch", "delete"] p.2).bind (fun p2 =>
      lit "(" p2.2))).isSome ||
  (lit "fetch(" cs).isSome

/-- Regex `await\s+new\s+Promise.*setTimeout` (single line). -/
def reAwaitPromiseTimeoutAt (cs : Chars) : Bool :=
  match (lit "await" cs).bind (fun r =>
      (wsPlus r).bind (fun r2 =>
        (lit "new" r2).bind (fun r3 =>
          (wsPlus r3).bind (fun r4 => lit "Promise" r4)))) with
  | some rest => containsC rest "setTimeout"
  | none => false

/-- Regex `await\s+sleep\(`. -/
def reAwaitSleepAt (cs : Chars) : Bool :=
  ((lit "await" cs).bind (fun r =>
    (wsPlus r).bind (fun r2 => lit "sleep(" r2))).isSome

/-- Regex `catch\s*\([^)]+\)`. -/
def reCatchAnyAt (cs : Chars) : Bool :=
  ((lit "catch" cs).bind (fun r =>
    (lit "(" (wsStar r)).bind (fun r2 =>
      (classPlus (fun c => c ≠ ')') r2).bind (fun p => lit ")" p.2)))).isSome

/-- Regex `throw\s+new\s+\w+Exception\([^)]*needle`: the non-paren run
after the opening parenthesis must contain `needle`. -/
def reThrowExceptionArgAt (needle : String) (cs : Chars) : Bool :=
  match (lit "throw" cs).bind (fun r =>
      (wsPlus r).bind (fun r2 =>
        (lit "new" r2).bind (fun r3 => wsPlus r3))) with
  | some r4 =>
    let w := classStar isWordChar r4
    if "Exception".toList.isSuffixOf w.1 && w.1.length > "Exception".length then
      match lit "(" w.2 with
      | some r5 => containsC (classStar (fun c => c ≠ ')') r5).1 needle
      | none => false
    else false
  | none => false

/-- Per-line findings of `validateExternalServicePatterns`:
`(warnings, suggestions)` (no violations are ever produced). -/
def externalServicesLine (file : String) (lines : List String) (idx : ℕ)
    (line : String) : List Warning × List String :=
  let lineNum := idx + 1
  let retryWarn : List Warning :=
    if testAnyC reExternalCallAt line.toList then
      let funcBody := joinNl (jsSlice lines (idx - 30) (idx + 30))
      if !sContains funcBody "retry" && !sContains funcBody "attempt" then
        [{ file := file, line := lineNum, rule := "INV-EXTERNAL-RETRY",
           message := "External API call may need retry logic." }]
      else []
    else []
  let delaySugg : List String :=
    if testAnyC reAwaitPromiseTimeoutAt line.toList ||
       testAnyC reAwaitSleepAt line.toList then
      [file ++ ":" ++ toString lineNum ++
       " - Explicit delay detected. Consider deferring operation or using retry instead."]
    else []
  let exposeWarn : List Warning :=
    if testAnyC reCatchAnyAt line.toList then
      let catchBlock := joinNl (jsSlice lines idx (min (idx + 10) lines.length))
      if testAny (reThrowExceptionArgAt "error.") catchBlock ||
         testAny (reThrowExceptionArgAt ".message") catchBlock then
        let nextLines := joinNl (jsSlice lines idx (min (idx + 5) lines.length))
        if sContains nextLines "external" || sContains nextLines "http" ||
           sContains nextLines "api" then
          [{ file := file, line := lineNum, rule := "INV-EXTERNAL-ERROR-EXPOSE",
             message := "External service error may be exposed to user." }]
        else []
      else []
    else []
  (retryWarn ++ exposeWarn, delaySugg)

def validateExternalServicePatterns (ctx : ValidationContext) : ValidationResult :=
  let perFile := ctx.map (fun f =>
    let lines := jsLines f.2
    let perLine := lines.enum.map (fun p => externalServicesLine f.1 lines p.1 p.2)
    ((perLine.map Prod.fst).flatten, (perLine.map Prod.snd).flatten))
  let violations : List Violation := []
  let warnings := (perFile.map Prod.fst).flatten
  let suggestions := (perFile.map Prod.snd).flatten
  let score : ℚ :=
    1 - (violations.length : ℚ) * (2/10) - (warnings.length : ℚ) * (5/100)
  { sopFile := "6-external-services-timing", metric := "external-service-compliance",
    score := max 0 score,
    passed := violations.length = 0,
    violations := violations, warnings := warnings, suggestions := suggestions }

/-! ## `validateJobProcessing` -/

/-- Regex `Job<[^>]+>`. -/
def reJobTypeAt (cs : Chars) : Bool :=
  ((lit "Job<" cs).bind (fun r =>
    (classPlus (fun c => c ≠ '>') r).bind (fun p => lit ">" p.2))).isSome

/-- Regex `interface.*JobData` (single line). -/
def reInterfaceJobDataAt (cs : Chars) : Bool :=
  match lit "interface" cs with
  | some r => containsC r "JobData"
  | none => false

/-- Regex `\.add\(|\.addJob\(`. -/
def reAddJobAt (cs : Chars) : Bool :=
  (lit ".add(" cs).isSome || (lit ".addJob(" cs).isSome

/-- The per-file findings of `validateJobProcessing`:
`(warnings, suggestions)` (no violations are ever produced). -/
def jobProcessingFile (file content : String) : List Warning × List String :=
  let lines := jsLines content
  let processorWarnings : List Warning :=
    if sContains file "processor" || sContains file "consumer" then
      let idemWarn :=
        if sContains content "async process(" || sContains content "async execute(" then
          if !sContains content "already" && !sContains content "processed" &&
             !sContains content "idempotent" && !sContains content "skip" then
            if sContains content "sendEmail" || sContains content "notify" ||
               sContains content "webhook" || sContains content "create(" then
              [{ file := file, line := 1, rule := "INV-JOB-IDEMPOTENT",
                 message := "Job processor with side effects may need idempotency check." }]
            else []
          else []
        else []
      let tenantWarns := lines.enum.flatMap (fun p =>
        if testAnyC reJobTypeAt p.2.toList || testAnyC reInterfaceJobDataAt p.2.toList then
          let typeBlock := joinNl (jsSlice lines p.1 (min (p.1 + 15) lines.length))
          if !sContains typeBlock "organizationId" && !sContains typeBlock "organization_id" then
            [{ file := file, line := p.1 + 1, rule := "INV-JOB-TENANT",
               message := "Job data type may be missing organizationId." }]
          else []
        else [])
      let logWarn :=
        if !sContains content "this.logger.log" && !sContains content "this.logger.error" then
          [{ file := file, line := 1, rule := "INV-JOB-LOGGING",
             message := "Job processor may be missing logging." }]
        else []
      idemWarn ++ tenantWarns ++ logWarn
    else []
  let producerSuggestions : List String :=
    if sContains content "addJob" || sContains content "add(" then
      lines.enum.flatMap (fun p =>
        if testAnyC reAddJobAt p.2.toList then
          let jobCall := joinNl (jsSlice lines p.1 (min (p.1 + 10) lines.length))
          if !sContains jobCall "attempts" && !sContains jobCall "backoff" then
            [file ++ ":" ++ toString (p.1 + 1) ++
             " - Job added without explicit retry configuration."]
          else []
        else [])
    else []
  (processorWarnings, producerSuggestions)

def validateJobProcessing (ctx : ValidationContext) : ValidationResult :=
  let perFile := ctx.map (fun f => jobProcessingFile f.1 f.2)
  let violations : List Violation := []
  let warnings := (perFile.map Prod.fst).flatten
  let suggestions := (perFile.map Prod.snd).flatten
  let score : ℚ :=
    1 - (violations.length : ℚ) * (2/10) - (warnings.length : ℚ) * (1/10)
  { sopFile := "7-queue-job-processing", metric := "job-processing-compliance",
    score := max 0 score,
    passed := violations.length = 0,
    violations := violations, warnings := warnings, suggestions := suggestions }

/-! ## `validateApiDesign` -/

/-- Regex `@(Post|Put|Patch|Delete)\(`. -/
def reMutationDecoratorAt (cs : Chars) : Bool :=
  ((lit "@" cs).bind (fun r =>
    (altLits ["Post", "Put", "Patch", "Delete"] r).bind (fun p =>
      lit "(" p.2))).isSome

/-- Regex `@(Get|Post|Put|Patch|Delete)\(`. -/
def reEndpointDecoratorAt (cs : Chars) : Bool :=
  ((lit "@" cs).bind (fun r =>
    (altLits ["Get", "Post", "Put", "Patch", "Delete"] r).bind (fun p =>
      lit "(" p.2))).isSome

/-- Regex `^\s+\w+\s*:\s*(string|number|boolean)` (anchored at the start
of the line). -/
def reDtoFieldLine (line : String) : Bool :=
  ((wsPlus line.toList).bind (fun r =>
    (classPlus isWordChar r).bind (fun p =>
      (lit ":" (wsStar p.2)).bind (fun r2 =>
        (altLits ["string", "number", "boolean"] (wsStar r2)).map (fun _ => ()))))).isSome

/-- Per-file findings of `validateApiDesign`:
`(violations, warnings, suggestions)`. -/
def apiDesignFile (file content : String) : List Violation × List Warning × List String :=
  let lines := jsLines content
  if sEndsWith file ".controller.ts" then
    let docsWarn : List Warning :=
      if !sContains content "@ApiTags" then
        [{ file := file, line := 1, rule := "INV-API-DOCS",
           message := "Controller missing @ApiTags decorator." }]
      else []
    let perLine := lines.enum.map (fun p =>
      let lineNum := p.1 + 1
      let guardViol : List Violation :=
        if testAnyC reMutationDecoratorAt p.2.toList then
          let methodBlock := joinNl (jsSlice lines (p.1 - 5) (p.1 + 1))
          if !sContains methodBlock "@UseGuards" && !sContains content "@UseGuards(" then
            [{ file := file, line := lineNum, rule := "INV-API-GUARD",
               message := "Mutation endpoint missing @UseGuards decorator.",
               severity := .critical, fix := none }]
          else []
        else []
      let opSugg : List String :=
        if testAnyC reEndpointDecoratorAt p.2.toList then
          let methodBlock := joinNl (jsSlice lines (p.1 - 3) (p.1 + 1))
          if !sContains methodBlock "@ApiOperation" then
            [file ++ ":" ++ toString lineNum ++
             " - Endpoint missing @ApiOperation documentation."]
          else []
        else []
      (guardViol, opSugg))
    ((perLine.map Prod.fst).flatten, docsWarn, (perLine.map Prod.snd).flatten)
  else if sContains file "/dto/" then
    let dtoWarns := lines.enum.flatMap (fun p =>
      if reDtoFieldLine p.2 && !sContains p.2 "?" then
        let prevLines := joinNl (jsSlice lines (p.1 - 3) p.1)
        if !sContains prevLines "@Is" && !sContains prevLines "@Valid" then
          [{ file := file, line := p.1 + 1, rule := "INV-DTO-VALIDATION",
             message := "Required field may be missing validation decorator." }]
        else []
      else [])
    ([], dtoWarns, [])
  else ([], [], [])

def validateApiDesign (ctx : ValidationContext) : ValidationResult :=
  let perFile := ctx.map (fun f => apiDesignFile f.1 f.2)
  let violations := (perFile.map (fun t => t.1)).flatten
  let warnings := (perFile.map (fun t => t.2.1)).flatten
  let suggestions := (perFile.map (fun t => t.2.2)).flatten
  let criticalViolations := (violations.filter (fun v => v.severity = .critical)).length
  let score : ℚ :=
    if criticalViolations = 0 then 1
    else max 0 (1 - (criticalViolations : ℚ) * (25/100))
  { sopFile := "8-api-design-patterns", metric := "api-design-compliance",
    score := score,
    passed := criticalViolations = 0,
    violations := violations, warnings := warnings, suggestions := suggestions }

/-! ## `validateCodeQuality` -/

/-- Regex `\/\/\s*(TODO|FIXME|HACK|XXX)` with `/i` on the lower-cased
line. -/
def reTodoAt (cs : Chars) : Bool :=
  ((lit "//" cs).bind (fun r =>
    (altLits ["todo", "fixme", "hack", "xxx"] (wsStar r)).map (fun _ => ()))).isSome

/-- Regex `:\s*any\s*[;,=)]`. -/
def reColonAnyAt (cs : Chars) : Bool :=
  ((lit ":" cs).bind (fun r =>
    (lit "any" (wsStar r)).bind (fun r2 =>
      (oneOf (fun c => c = ';' || c = ',' || c = '=' || c = ')') (wsStar r2)).map
        (fun _ => ())))).isSome

/-- Regex `as\s+any`. -/
def reAsAnyAt (cs : Chars) : Bool :=
  ((lit "as" cs).bind (fun r =>
    (wsPlus r).bind (fun r2 => lit "any" r2))).isSome

/-- Regex `^\s*\/\/\s*(await|return|const|let|var|if|for|while)\s`
(anchored at the start of the line). -/
def reCommentedCodeLine (line : String) : Bool :=
  ((lit "//" (wsStar line.toList)).bind (fun r =>
    (altLits ["await", "return", "const", "let", "var", "if", "for", "while"]
      (wsStar r)).bind (fun p =>
        (oneOf isWS p.2).map (fun _ => ())))).isSome

/-- Ordered literal alternation followed by a continuation, with
backtracking across alternatives. -/
def altLitsThen (alts : List String) (k : Chars → Option Chars) (cs : Chars) :
    Option Chars :=
  match alts with
  | [] => none
  | a :: rest =>
    match (lit a cs).bind k with
    | some r => some r
    | none => altLitsThen rest k cs

/-- Regex `[^a-zA-Z0-9_](1000|2000|3000|5000|10000|60000|86400)\s*[),;]`. -/
def reMagicNumberAt (cs : Chars) : Bool :=
  ((oneOf (fun c => !(c.isAlphanum || c = '_')) cs).bind (fun p =>
    altLitsThen ["1000", "2000", "3000", "5000", "10000", "60000", "86400"]
      (fun r => (oneOf (fun c => c = ')' || c = ',' || c = ';') (wsStar r)).map
        (fun q => q.2)) p.2)).isSome

/-- Per-line findings of `validateCodeQuality`: `(warnings, suggestions)`
(no violations are ever produced). -/
def codeQualityLine (file : String) (idx : ℕ) (line : String) :
    List Warning × List String :=
  let lineNum := idx + 1
  let todoWarn : List Warning :=
    if testAnyC reTodoAt (lowerC line.toList) then
      [{ file := file, line := lineNum, rule := "INV-TODO",
         message := "Unresolved TODO/FIXME comment." }]
    else []
  let anyWarn : List Warning :=
    if testAnyC reColonAnyAt line.toList || testAnyC reAsAnyAt line.toList then
      [{ file := file, line := lineNum, rule := "INV-ANY-TYPE",
         message := "Usage of \"any\" type reduces type safety." }]
    else []
  let commentSugg : List String :=
    if reCommentedCodeLine line then
      [file ++ ":" ++ toString lineNum ++
       " - Commented-out code detected. Consider removing."]
    else []
  let magicSugg : List String :=
    if testAnyC reMagicNumberAt line.toList then
      if !sContains line "const" && !sContains line "//" then
        [file ++ ":" ++ toString lineNum ++
         " - Magic number detected. Consider extracting to named constant."]
      else []
    else []
  (todoWarn ++ anyWarn, commentSugg ++ magicSugg)

def validateCodeQuality (ctx : ValidationContext) : ValidationResult :=
  let perFile := ctx.map (fun f =>
    let lines := jsLines f.2
    let perLine := lines.enum.map (fun p => codeQualityLine f.1 p.1 p.2)
    let dateSugg : List String :=
      if sEndsWith f.1 ".service.ts" then
        if sContains f.2 "new Date()" && !sContains f.2 "Date = new Date" then
          [f.1 ++ " - Using new Date() directly may make testing harder. Consider injectable time service."]
        else []
      else []
    ((perLine.map Prod.fst).flatten, (perLine.map Prod.snd).flatten ++ dateSugg))
  let violations : List Violation := []
  let warnings := (perFile.map Prod.fst).flatten
  let suggestions := (perFile.map Prod.snd).flatten
  let score : ℚ :=
    1 - (violations.length : ℚ) * (1/10) - (warnings.length : ℚ) * (2/100)
  { sopFile := "9-testing-code-quality", metric := "code-quality",
    score := max 0 score,
    passed := violations.length = 0,
    violations := violations, warnings := warnings, suggestions := suggestions }

/-! ## `validateAuditLogging` -/

def criticalEntities : List String :=
  ["organizations", "role_plays", "assessments", "users", "rubrics"]

/-- The per-match check of `validateAuditLogging`: look backwards for the
enclosing `async ` and forwards for a closing brace at least 100
characters later, and warn when the enclosed body has no audit call. -/
def auditLogMatchWarnings (file content entity verb : String) (idx : ℕ) : List Warning :=
  let funcStart := lastIndexOfJS content "async " idx
  let funcEnd := indexOfJS content "\x7d" (idx + 100)
  let funcBody := jsSubstring content funcStart funcEnd
  if !sContains funcBody "auditLogsService" && !sContains funcBody "audit" then
    [{ file := file, line := lineOfIndex content idx, rule := "INV-AUDIT-LOG",
       message := verb ++ " operation on " ++ entity ++ " may be missing audit log." }]
  else []

def validateAuditLogging (ctx : ValidationContext) : ValidationResult :=
  let warnings := ctx.flatMap (fun f =>
    if !sEndsWith f.1 ".service.ts" then []
    else
      criticalEntities.flatMap (fun entity =>
        let createMatches := matchAll (fun cs =>
          (lit ("prisma." ++ entity ++ ".create(") cs).map (fun r => ((), r))) f.2
        let updateMatches := matchAll (fun cs =>
          (lit ("prisma." ++ entity ++ ".update(") cs).map (fun r => ((), r))) f.2
        createMatches.flatMap (fun m => auditLogMatchWarnings f.1 f.2 entity "Create" m.1) ++
        updateMatches.flatMap (fun m => auditLogMatchWarnings f.1 f.2 entity "Update" m.1)))
  let score : ℚ :=
    if warnings.length = 0 then 1
    else max 0 (1 - (warnings.length : ℚ) * (1/10))
  { sopFile := "2-supabase", metric := "audit-log-coverage",
    score := score,
    passed := true,
    violations := [], warnings := warnings, suggestions := [] }

/-! ## `general-practices-validator.ts`: data model -/

structure LineContext where
  prevLines : List String
  nextLines : List String
  fullContent : String
  filename : String
  inFunction : Bool
  inClass : Bool
  inTryCatch : Bool

structure RuleViolation where
  message : String
  fix : Option String := none
deriving DecidableEq, Repr

/-- A general best-practices rule.  The `check` field is an arbitrary
function in the source and may raise, so it is modelled in the `Except`
monad; every rule actually present in the catalog returns `.ok`. -/
structure GeneralRule where
  id : String
  name : String
  description : String
  category : String
  severity : Severity
  check : String → ℕ → LineContext → Except String (Option RuleViolation)

/-- Count of occurrences of a character (JS `(l.match(/c/g) || []).length`). -/
def countChar (s : String) (c : Char) : ℕ := (s.toList.filter (fun x => x = c)).length

/-- `checkInFunction`: backward scan with a signed brace balance
(increment on `\x7d`, decrement on `\x7b`), succeeding at the first line
matching `async\s+\w+|function\s+\w+` while the balance is `≤ 0`. -/
def reFuncStartAt (cs : Chars) : Bool :=
  ((altLits ["async", "function"] cs).bind (fun p =>
    (wsPlus p.2).bind (fun r => (classPlus isWordChar r).map (fun _ => ())))).isSome

def checkInFunctionAux : List String → ℤ → Bool
  | [], _ => false
  | l :: rest, bc =>
    let bc' := bc + countChar l '\x7d' - countChar l '\x7b'
    if testAny reFuncStartAt l && bc' ≤ 0 then true
    else checkInFunctionAux rest bc'

def checkInFunction (lines : List String) (idx : ℕ) : Bool :=
  checkInFunctionAux ((lines.take (idx + 1)).reverse) 0

/-- `checkInClass`: backward scan for `^class\s+\w+` or
`^export\s+class\s+\w+` (anchored, no brace balancing). -/
def reClassStartLine (line : String) : Bool :=
  ((lit "class" line.toList).bind (fun r =>
    (wsPlus r).bind (fun r2 => (classPlus isWordChar r2).map (fun _ => ())))).isSome ||
  ((lit "export" line.toList).bind (fun r =>
    (wsPlus r).bind (fun r2 =>
      (lit "class" r2).bind (fun r3 =>
        (wsPlus r3).bind (fun r4 => (classPlus isWordChar r4).map (fun _ => ())))))).isSome

def checkInClass (lines : List String) (idx : ℕ) : Bool :=
  (lines.take (idx + 1)).any reClassStartLine

/-- Regex `try\s*\x7b`. -/
def reTryAt (cs : Chars) : Bool :=
  ((lit "try" cs).bind (fun r => lit "\x7b" (wsStar r))).isSome

/-- Regex `catch\s*\([^)]*\)\s*\x7b`. -/
def reCatchBraceAt (cs : Chars) : Bool :=
  ((lit "catch" cs).bind (fun r =>
    (lit "(" (wsStar r)).bind (fun r2 =>
      (lit ")" (classStar (fun c => c ≠ ')') r2).2).bind (fun r3 =>
        lit "\x7b" (wsStar r3))))).isSome

def checkInTryCatchAux : List String → ℤ → Bool
  | [], _ => false
  | l :: rest, bc =>
    let bc' := bc + countChar l '\x7d' - countChar l '\x7b'
    if (testAny reTryAt l && bc' ≤ 0) || (testAny reCatchBraceAt l && bc' ≤ 0) then true
    else checkInTryCatchAux rest bc'

def checkInTryCatch (lines : List String) (idx : ℕ) : Bool :=
  checkInTryCatchAux ((lines.take (idx + 1)).reverse) 0

/-! ### Security rules -/

/-- SEC-001 regex `\beval\s*\(` (with the word boundary). -/
def reEvalCall (line : String) : Bool :=
  let cl := line.toList
  (List.range cl.length).any (fun i =>
    (decide (i = 0) || !isWordChar (cl.getD (i - 1) ' ')) &&
    ((lit "eval" (cl.drop i)).bind (fun r => lit "(" (wsStar r))).isSome)

def sec001 : GeneralRule :=
  { id := "SEC-001", name := "No eval()",
    description := "eval() can execute arbitrary code and is a security risk",
    category := "security", severity := .critical,
    check := fun line _ _ => .ok (
      if reEvalCall line then
        some { message := "eval() usage detected - security vulnerability",
               fix := some "Use JSON.parse() for JSON, or Function constructor if absolutely necessary" }
      else none) }

/-- SEC-002 regex `new\s+Function\s*\(`. -/
def reNewFunctionAt (cs : Chars) : Bool :=
  ((lit "new" cs).bind (fun r =>
    (wsPlus r).bind (fun r2 =>
      (lit "Function" r2).bind (fun r3 => lit "(" (wsStar r3))))).isSome

def sec002 : GeneralRule :=
  { id := "SEC-002", name := "No Function constructor",
    description := "new Function() can execute arbitrary code",
    category := "security", severity := .high,
    check := fun line _ _ => .ok (
      if testAnyC reNewFunctionAt line.toList then
        some { message := "new Function() can execute arbitrary code",
               fix := some "Use regular functions or arrow functions instead" }
      else none) }

/-- SEC-003 regex `\.innerHTML\s*=`. -/
def reInnerHtmlAt (cs : Chars) : Bool :=
  ((lit ".innerHTML" cs).bind (fun r => lit "=" (wsStar r))).isSome

def sec003 : GeneralRule :=
  { id := "SEC-003", name := "No innerHTML with user input",
    description := "innerHTML with user input can lead to XSS",
    category := "security", severity := .critical,
    check := fun line _ _ => .ok (
      let low := String.mk (lowerC line.toList)
      if testAnyC reInnerHtmlAt line.toList &&
         !(sContains low "sanitize" || sContains low "escape" || sContains low "encode") then
        some { message := "innerHTML assignment without visible sanitization",
               fix := some "Use textContent, or sanitize HTML before assignment" }
      else none) }

/-- SEC-004 regex `['"]sk-[a-zA-Z0-9]\x7b20,\x7d['"]`. -/
def reLongSkKeyAt (cs : Chars) : Bool :=
  ((oneOf isQuote cs).bind (fun q =>
    (lit "sk-" q.2).bind (fun r =>
      (classPlus Char.isAlphanum r).bind (fun w =>
        if w.1.length ≥ 20 then (oneOf isQuote w.2).map (fun _ => ()) else none)))).isSome

/-- SEC-004 regex `password\s*[:=]\s*['"][^'"]\x7b4,\x7d['"](?!.*\$\x7b)`;
the negative look-ahead requires the rest of the line after the closing
quote not to contain `$\x7b`. -/
def rePasswordLiteralAt (cs : Chars) : Bool :=
  match (lit "password" cs).bind (fun r =>
      (oneOf (fun c => c = ':' || c = '=') (wsStar r)).bind (fun e =>
        (oneOf isQuote (wsStar e.2)).bind (fun q =>
          (classPlus (fun c => !isQuote c) q.2).bind (fun w =>
            if w.1.length ≥ 4 then (oneOf isQuote w.2).map (fun q2 => q2.2) else none)))) with
  | some rest => !containsC rest "$\x7b"
  | none => false

/-- SEC-004 regex `AKIA[0-9A-Z]\x7b16\x7d`. -/
def reAwsKeyAt (cs : Chars) : Bool :=
  match lit "AKIA" cs with
  | some r =>
    let pre := r.take 16
    pre.length = 16 && pre.all (fun c => c.isDigit || (c.isUpper && c.isAlpha))
  | none => false

def sec004 : GeneralRule :=
  { id := "SEC-004", name := "No hardcoded credentials",
    description := "Credentials should not be hardcoded in source",
    category := "security", severity := .critical,
    check := fun line _ _ => .ok (
      let low := String.mk (lowerC line.toList)
      if testAnyC reLongSkKeyAt line.toList then
        some { message := "Hardcoded API key detected", fix := some "Use environment variables" }
      else if testAnyC rePasswordLiteralAt line.toList &&
              !(sContains low "example" || sContains low "test" || sContains low "mock") then
        some { message := "Hardcoded password detected", fix := some "Use environment variables" }
      else if testAnyC reAwsKeyAt line.toList then
        some { message := "AWS access key detected", fix := some "Use environment variables" }
      else none) }

/-- SEC-005 regex `\$queryRaw`.*\$\x7b` (and the `$executeRaw` variant):
the backtick-introduced template must be followed by an interpolation on
the same line. -/
def reRawSqlInterpAt (raw : String) (cs : Chars) : Bool :=
  match lit (raw ++ "`") cs with
  | some rest => containsC rest "$\x7b"
  | none => false

/-- SEC-005 regex `(SELECT|INSERT|UPDATE|DELETE).*\+\s*['"]?\s*\w+`. -/
def rePlusConcatAt (cs : Chars) : Bool :=
  ((lit "+" cs).bind (fun r =>
    optClassThen isQuote (fun r2 =>
      (oneOf isWordChar (wsStar r2)).map (fun p => p.2)) (wsStar r))).isSome

def reSqlConcatAt (cs : Chars) : Bool :=
  match altLits ["SELECT", "INSERT", "UPDATE", "DELETE"] cs with
  | some p => testAnyC rePlusConcatAt p.2
  | none => false

def sec005 : GeneralRule :=
  { id := "SEC-005", name := "No SQL string concatenation",
    description := "String concatenation in SQL can lead to injection",
    category := "security", severity := .critical,
    check := fun line _ _ => .ok (
      if (testAnyC (reRawSqlInterpAt "$queryRaw") line.toList ||
          testAnyC (reRawSqlInterpAt "$executeRaw") line.toList) &&
         !sContains line "Prisma.sql" && !sContains line "Prisma.join" then
        some { message := "Raw SQL with string interpolation - potential SQL injection",
               fix := some "Use Prisma.sql`...` for parameterized queries" }
      else if testAnyC reSqlConcatAt line.toList then
        some { message := "SQL string concatenation detected - potential injection",
               fix := some "Use parameterized queries" }
      else none) }

/-- SEC-006 regex `\$\x7b|\+\s*\w`. -/
def reVarInterpAt (cs : Chars) : Bool :=
  (lit "$\x7b" cs).isSome ||
  ((lit "+" cs).bind (fun r => (oneOf isWordChar (wsStar r)).map (fun _ => ()))).isSome

def sec006 : GeneralRule :=
  { id := "SEC-006", name := "No exec/spawn with user input",
    description := "Command execution with user input can lead to command injection",
    category := "security", severity := .critical,
    check := fun line _ _ => .ok (
      if sContains line "child_process" || sContains line "exec(" ||
         sContains line "spawn(" || sContains line "execSync(" then
        if testAnyC reVarInterpAt line.toList then
          some { message := "Command execution with variable input - potential command injection",
                 fix := some "Validate and sanitize all inputs, use argument arrays instead of string" }
        else none
      else none) }

def securityRules : List GeneralRule := [sec001, sec002, sec003, sec004, sec005, sec006]

/-! ### Error-handling rules -/

/-- ERR-001 regex `catch\s*\([^)]*\)\s*\x7b\s*\x7d`. -/
def reEmptyCatchAt (cs : Chars) : Bool :=
  ((lit "catch" cs).bind (fun r =>
    (lit "(" (wsStar r)).bind (fun r2 =>
      (lit ")" (classStar (fun c => c ≠ ')') r2).2).bind (fun r3 =>
        (lit "\x7b" (wsStar r3)).bind (fun r4 => lit "\x7d" (wsStar r4)))))).isSome

/-- ERR-001 regex `catch\s*\([^)]*\)\s*\x7b$` (brace at end of line). -/
def reCatchOpenEOLAt (cs : Chars) : Bool :=
  match (lit "catch" cs).bind (fun r =>
      (lit "(" (wsStar r)).bind (fun r2 =>
        (lit ")" (classStar (fun c => c ≠ ')') r2).2).bind (fun r3 =>
          lit "\x7b" (wsStar r3)))) with
  | some rest => rest.isEmpty
  | none => false

/-- ERR-001 regex `^\s*\x7d` (anchored). -/
def reCloseBraceLine (line : String) : Bool :=
  (lit "\x7d" (wsStar line.toList)).isSome

def err001 : GeneralRule :=
  { id := "ERR-001", name := "No empty catch blocks",
    description := "Empty catch blocks hide errors",
    category := "error-handling", severity := .high,
    check := fun line _ ctx => .ok (
      if testAnyC reEmptyCatchAt line.toList then
        some { message := "Empty catch block - errors will be silently ignored",
               fix := some "Log the error or rethrow with context" }
      else if testAnyC reCatchOpenEOLAt line.toList then
        let nextLine := ctx.nextLines.getD 0 ""
        if reCloseBraceLine nextLine then
          some { message := "Empty catch block - errors will be silently ignored",
                 fix := some "Log the error or rethrow with context" }
        else none
      else none) }

/-- ERR-002 regex `catch\s*\([^)]*\)\s*\x7b\s*console\.log`. -/
def reCatchConsoleAt (cs : Chars) : Bool :=
  ((lit "catch" cs).bind (fun r =>
    (lit "(" (wsStar r)).bind (fun r2 =>
      (lit ")" (classStar (fun c => c ≠ ')') r2).2).bind (fun r3 =>
        (lit "\x7b" (wsStar r3)).bind (fun r4 =>
          lit "console.log" (wsStar r4)))))).isSome

def err002 : GeneralRule :=
  { id := "ERR-002", name := "No catch with just console.log",
    description := "Catch blocks should handle errors, not just log",
    category := "error-handling", severity := .medium,
    check := fun line _ _ => .ok (
      if testAnyC reCatchConsoleAt line.toList then
        some { message := "Catch block only logs error but doesn\x27t handle it",
               fix := some "Rethrow the error, recover, or return an error response" }
      else none) }

/-- ERR-003 regex `async\s+\w+\s*\([^)]*\)\s*\x7b`. -/
def reAsyncFuncBraceAt (cs : Chars) : Bool :=
  ((lit "async" cs).bind (fun r =>
    (wsPlus r).bind (fun r2 =>
      (classPlus isWordChar r2).bind (fun p =>
        (lit "(" (wsStar p.2)).bind (fun r4 =>
          (lit ")" (classStar (fun c => c ≠ ')') r4).2).bind (fun r6 =>
            lit "\x7b" (wsStar r6))))))).isSome

/-- Regex `await\s`. -/
def reAwaitWSAt (cs : Chars) : Bool :=
  ((lit "await" cs).bind (fun r => (oneOf isWS r).map (fun _ => ()))).isSome

def err003 : GeneralRule :=
  { id := "ERR-003", name := "Async functions should handle errors",
    description := "Async functions without try-catch can crash",
    category := "error-handling", severity := .medium,
    check := fun line _ ctx => .ok (
      if testAnyC reAsyncFuncBraceAt line.toList then
        let funcBody := joinNl (ctx.nextLines.take 20)
        if testAny reAwaitWSAt funcBody &&
           !(testAny reTryAt funcBody || sContains funcBody ".catch(") then
          some { message := "Async function with await but no error handling",
                 fix := some "Add try-catch or .catch() for await calls" }
        else none
      else none) }

/-- ERR-004 regex `new\s+Promise\s*\(`. -/
def reNewPromiseAt (cs : Chars) : Bool :=
  ((lit "new" cs).bind (fun r =>
    (wsPlus r).bind (fun r2 =>
      (lit "Promise" r2).bind (fun r3 => lit "(" (wsStar r3))))).isSome

def err004 : GeneralRule :=
  { id := "ERR-004", name := "Promise rejection handling",
    description := "Promises should have rejection handlers",
    category := "error-handling", severity := .medium,
    check := fun line _ _ => .ok (
      if testAnyC reNewPromiseAt line.toList then
        if !(sContains line "reject" || sContains line "_") then
          some { message := "Promise created without reject handler",
                 fix := some "Add reject parameter: new Promise((resolve, reject) => \x7b...\x7d)" }
        else none
      else none) }

/-- ERR-005 regex `throw\s+new\s+\w*Error\s*\(\s*\)`: the word run must
end in `Error` (possibly exactly `Error`). -/
def reThrowEmptyErrorAt (cs : Chars) : Bool :=
  match (lit "throw" cs).bind (fun r =>
      (wsPlus r).bind (fun r2 =>
        (lit "new" r2).bind (fun r3 => wsPlus r3))) with
  | some r4 =>
    let w := classStar isWordChar r4
    "Error".toList.isSuffixOf w.1 &&
    ((lit "(" (wsStar w.2)).bind (fun r5 => lit ")" (wsStar r5))).isSome
  | none => false

def err005 : GeneralRule :=
  { id := "ERR-005", name := "Error thrown should have message",
    description := "Errors should have descriptive messages",
    category := "error-handling", severity := .medium,
    check := fun line _ _ => .ok (
      if testAnyC reThrowEmptyErrorAt line.toList then
        some { message := "Error thrown without message",
               fix := some "Add descriptive error message" }
      else none) }

def errorHandlingRules : List GeneralRule := [err001, err002, err003, err004, err005]

/-! ### Performance rules -/

/-- PERF-001/PERF-004 loop-start regex `for\s*\(|\.forEach\(|while\s*\(`. -/
def reLoopKeywordAt (cs : Chars) : Bool :=
  ((lit "for" cs).bind (fun r => lit "(" (wsStar r))).isSome ||
  (lit ".forEach(" cs).isSome ||
  ((lit "while" cs).bind (fun r => lit "(" (wsStar r))).isSome

def perf001 : GeneralRule :=
  { id := "PERF-001", name := "Avoid await in loops",
    description := "Sequential awaits in loops are slow",
    category := "performance", severity := .medium,
    check := fun line _ ctx => .ok (
      if testAnyC reLoopKeywordAt line.toList then
        let loopBody := joinNl (ctx.nextLines.take 15)
        if testAny reAwaitWSAt loopBody && !sContains loopBody "Promise.all" then
          some { message := "await inside loop - runs sequentially instead of in parallel",
                 fix := some "Use Promise.all() with map(), or batch the operations" }
        else none
      else none) }

/-- PERF-002 regex `require\s*\(|import`. -/
def reRequireImportAt (cs : Chars) : Bool :=
  ((lit "require" cs).bind (fun r => lit "(" (wsStar r))).isSome ||
  (lit "import" cs).isSome

def perf002 : GeneralRule :=
  { id := "PERF-002", name := "No sync file operations",
    description := "Sync file operations block the event loop",
    category := "performance", severity := .medium,
    check := fun line _ _ => .ok (
      if sContains line "readFileSync" || sContains line "writeFileSync" ||
         sContains line "existsSync" || sContains line "readdirSync" ||
         sContains line "statSync" then
        if !testAnyC reRequireImportAt line.toList then
          some { message := "Sync file operation blocks event loop",
                 fix := some "Use async version (readFile, writeFile, etc.) with await" }
        else none
      else none) }

/-- PERF-003 regex `for\s*\(|while\s*\(`. -/
def reForWhileAt (cs : Chars) : Bool :=
  ((lit "for" cs).bind (fun r => lit "(" (wsStar r))).isSome ||
  ((lit "while" cs).bind (fun r => lit "(" (wsStar r))).isSome

/-- PERF-003 regex `function\s*\(|=>\s*\x7b`. -/
def reFuncLiteralAt (cs : Chars) : Bool :=
  ((lit "function" cs).bind (fun r => lit "(" (wsStar r))).isSome ||
  ((lit "=>" cs).bind (fun r => lit "\x7b" (wsStar r))).isSome

/-- PERF-003 regex `\.(map|filter|reduce|forEach|find|some|every)\(`. -/
def reIteratorCallAt (cs : Chars) : Bool :=
  ((lit "." cs).bind (fun r =>
    (altLits ["map", "filter", "reduce", "forEach", "find", "some", "every"] r).bind
      (fun p => lit "(" p.2))).isSome

def perf003 : GeneralRule :=
  { id := "PERF-003", name := "Avoid creating functions in loops",
    description := "Functions created in loops waste memory",
    category := "performance", severity := .medium,
    check := fun line _ ctx => .ok (
      if testAnyC reForWhileAt line.toList then
        let loopBody := joinNl (ctx.nextLines.take 10)
        if testAny reFuncLiteralAt loopBody then
          if !testAny reIteratorCallAt loopBody then
            some { message := "Function created inside loop",
                   fix := some "Define function outside loop and reference it" }
          else none
        else none
      else none) }

def perf004 : GeneralRule :=
  { id := "PERF-004", name := "Use Set for existence checks",
    description := "Array.includes() is O(n), Set.has() is O(1)",
    category := "performance", severity := .medium,
    check := fun line _ ctx => .ok (
      if sContains line ".includes(" then
        let prevLines := joinNl (ctx.prevLines.drop (ctx.prevLines.length - 10))
        if testAny reLoopKeywordAt prevLines then
          some { message := "Array.includes() in loop is O(n) per iteration",
                 fix := some "Convert array to Set before loop, use Set.has()" }
        else none
      else none) }

def performanceRules : List GeneralRule := [perf001, perf002, perf003, perf004]

/-! ### Reliability rules -/

/-- REL-001 regex `^\s*this\.\w+\.\w+\([^)]*\);?\s*$` (anchored at both
ends): capture the method name (the second word). -/
def reFloatingCallLine (line : String) : Option String :=
  (lit "this." (wsStar line.toList)).bind (fun r =>
    (classPlus isWordChar r).bind (fun p1 =>
      (lit "." p1.2).bind (fun r2 =>
        (classPlus isWordChar r2).bind (fun p2 =>
          (lit "(" p2.2).bind (fun r3 =>
            (lit ")" (classStar (fun c => c ≠ ')') r3).2).bind (fun r4 =>
              let r5 := match r4 with
                | ';' :: rest => rest
                | rest => rest
              if (wsStar r5).isEmpty then some (String.mk p2.1) else none))))))

def rel001 : GeneralRule :=
  { id := "REL-001", name := "No floating promises",
    description := "Promises without await or .then() can fail silently",
    category := "reliability", severity := .high,
    check := fun line _ _ => .ok (
      match reFloatingCallLine line with
      | some funcName =>
        if !sContains line "await" &&
           (["create", "update", "delete", "save", "send", "fetch", "post", "get",
             "put", "patch"].any (fun p => p.toList.isPrefixOf funcName.toList)) then
          some { message := "Potential floating promise - async operation without await",
                 fix := some "Add await before the call, or use .then()/.catch()" }
        else none
      | none => none) }

/-- REL-002: every branch of the source check returns `null`. -/
def rel002 : GeneralRule :=
  { id := "REL-002", name := "Check for null/undefined before access",
    description := "Accessing properties on null/undefined causes runtime errors",
    category := "reliability", severity := .medium,
    check := fun _ _ _ => .ok none }

/-- REL-003 regex `^\s*\w+\.\w+\s*=` (anchored at the start). -/
def reParamMutationLine (line : String) : Bool :=
  ((classPlus isWordChar (wsStar line.toList)).bind (fun p =>
    (lit "." p.2).bind (fun r =>
      (classPlus isWordChar r).bind (fun p2 =>
        lit "=" (wsStar p2.2))))).isSome

/-- REL-003 regex `\(([^)]+)\)`: capture the parameter list. -/
def reParenGroupAt (cs : Chars) : Option String :=
  (lit "(" cs).bind (fun r =>
    (classPlus (fun c => c ≠ ')') r).bind (fun p =>
      (lit ")" p.2).map (fun _ => String.mk p.1)))

/-- REL-003 regex `^\s*(\w+)\.`: capture the mutated variable. -/
def reMutatedVarLine (line : String) : Option String :=
  (classPlus isWordChar (wsStar line.toList)).bind (fun p =>
    (lit "." p.2).map (fun _ => String.mk p.1))

def rel003 : GeneralRule :=
  { id := "REL-003", name := "No mutation of function parameters",
    description := "Mutating parameters causes unexpected side effects",
    category := "reliability", severity := .medium,
    check := fun line _ ctx => .ok (
      if ctx.inFunction then
        if reParamMutationLine line then
          let funcDef := joinNl (ctx.prevLines.drop (ctx.prevLines.length - 15))
          match firstMatch reParenGroupAt funcDef with
          | some (_, group) =>
            let params := (splitChar group ',').map (fun p =>
              jsTrim ((splitChar (jsTrim p) ':').headD ""))
            match reMutatedVarLine line with
            | some mutatedVar =>
              if params.contains mutatedVar then
                some { message := "Mutating function parameter \x27" ++ mutatedVar ++ "\x27",
                       fix := some "Create a copy of the parameter before modifying" }
              else none
            | none => none
          | none => none
        else none
      else none) }

def rel004 : GeneralRule :=
  { id := "REL-004", name := "Timeout in async operations",
    description := "Async operations should have timeouts",
    category := "reliability", severity := .medium,
    check := fun line _ _ => .ok (
      if sContains line "fetch(" || sContains line "axios." ||
         sContains line "httpService." then
        if !(sContains line "timeout" || sContains line "signal" ||
             sContains line "AbortController") then
          some { message := "HTTP request without timeout",
                 fix := some "Add timeout option or AbortController signal" }
        else none
      else none) }

def reliabilityRules : List GeneralRule := [rel001, rel002, rel003, rel004]

/-! ### Maintainability rules -/

/-- MAINT-001 regex
`[^a-zA-Z0-9_](86400|3600|1000|60000|5000|10000|30000)[^0-9]`. -/
def reMaintMagicAt (cs : Chars) : Bool :=
  ((oneOf (fun c => !(c.isAlphanum || c = '_')) cs).bind (fun p =>
    altLitsThen ["86400", "3600", "1000", "60000", "5000", "10000", "30000"]
      (fun r => (oneOf (fun c => !c.isDigit) r).map (fun q => q.2)) p.2)).isSome

/-- MAINT-001 regex `=\s*\d+;?\s*\/\/`. -/
def reEqNumCommentAt (cs : Chars) : Bool :=
  ((lit "=" cs).bind (fun r =>
    (classPlus Char.isDigit (wsStar r)).bind (fun p =>
      let r2 := match p.2 with
        | ';' :: rest => rest
        | rest => rest
      lit "//" (wsStar r2)))).isSome

def maint001 : GeneralRule :=
  { id := "MAINT-001", name := "No magic numbers",
    description := "Magic numbers should be named constants",
    category := "maintainability", severity := .medium,
    check := fun line _ _ => .ok (
      if testAnyC reMaintMagicAt line.toList then
        if !(sContains line "const" || sContains line "let" || sContains line "var" ||
             testAnyC reEqNumCommentAt line.toList) then
          some { message := "Magic number detected",
                 fix := some "Extract to named constant (e.g., const TIMEOUT_MS = 5000)" }
        else none
      else none) }

/-- MAINT-002 regex `=>\s*\x7b|function\s*\(|\x7b\s*$`. -/
def reNestedMarker (line : String) : Bool :=
  testAnyC (fun cs =>
    ((lit "=>" cs).bind (fun r => lit "\x7b" (wsStar r))).isSome ||
    ((lit "function" cs).bind (fun r => lit "(" (wsStar r))).isSome ||
    (match lit "\x7b" cs with
     | some r => (wsStar r).isEmpty
     | none => false)) line.toList

def maint002 : GeneralRule :=
  { id := "MAINT-002", name := "No deeply nested callbacks",
    description := "Deep nesting reduces readability",
    category := "maintainability", severity := .medium,
    check := fun line _ _ => .ok (
      let indent := (line.toList.takeWhile isWS).length
      if indent > 20 then
        if reNestedMarker line then
          some { message := "Deeply nested code (>5 levels)",
                 fix := some "Extract to separate functions or use early returns" }
        else none
      else none) }

/-- MAINT-003 regex
`^\s*\/\/\s*(const|let|var|if|for|while|return|await|function|class|import)\s`. -/
def reCommentedCodeMaint (line : String) : Bool :=
  ((lit "//" (wsStar line.toList)).bind (fun r =>
    (altLits ["const", "let", "var", "if", "for", "while", "return", "await",
              "function", "class", "import"] (wsStar r)).bind (fun p =>
      (oneOf isWS p.2).map (fun _ => ())))).isSome

def maint003 : GeneralRule :=
  { id := "MAINT-003", name := "No commented-out code",
    description := "Commented code should be removed",
    category := "maintainability", severity := .medium,
    check := fun line _ _ => .ok (
      if reCommentedCodeMaint line then
        some { message := "Commented-out code detected",
               fix := some "Remove commented code, use version control for history" }
      else none) }

/-- MAINT-004 regex `:\s*any\s*[;,=)\]]|as\s+any\b`. -/
def reAnyTypeMaintAt (cs : Chars) : Bool :=
  ((lit ":" cs).bind (fun r =>
    (lit "any" (wsStar r)).bind (fun r2 =>
      (oneOf (fun c => c = ';' || c = ',' || c = '=' || c = ')' || c = ']')
        (wsStar r2)).map (fun _ => ())))).isSome ||
  (match (lit "as" cs).bind (fun r => (wsPlus r).bind (fun r2 => lit "any" r2)) with
   | some rest =>
     match rest with
     | [] => true
     | c :: _ => !isWordChar c
   | none => false)

def maint004 : GeneralRule :=
  { id := "MAINT-004", name := "Avoid any type",
    description := "\"any\" type defeats TypeScript benefits",
    category := "maintainability", severity := .medium,
    check := fun line _ _ => .ok (
      if testAnyC reAnyTypeMaintAt line.toList then
        some { message := "Usage of \"any\" type",
               fix := some "Use proper type, unknown, or generic" }
      else none) }

/-- MAINT-005 regex `async\s+\w+\s*\(|function\s+\w+\s*\(`. -/
def reNamedFuncAt (cs : Chars) : Bool :=
  ((altLits ["async", "function"] cs).bind (fun p =>
    (wsPlus p.2).bind (fun r =>
      (classPlus isWordChar r).bind (fun p2 => lit "(" (wsStar p2.2))))).isSome

/-- The MAINT-005 line-counting loop over the following lines: full brace
counts per line, counting lines once a brace has been seen, stopping when
the balance returns to zero. -/
def maint005Count : List String → ℕ → ℤ → Bool → ℕ → ℕ
  | [], _, _, _, acc => acc
  | l :: rest, fuel, bc, started, acc =>
    if fuel = 0 then acc
    else
      let started' := started || sContains l "\x7b"
      let bc' := bc + countChar l '\x7b' - countChar l '\x7d'
      let acc' := if started' then acc + 1 else acc
      if started' && bc' = 0 then acc'
      else maint005Count rest (fuel - 1) bc' started' acc'

def maint005 : GeneralRule :=
  { id := "MAINT-005", name := "Function too long",
    description := "Long functions are hard to maintain",
    category := "maintainability", severity := .medium,
    check := fun line _ ctx => .ok (
      if testAnyC reNamedFuncAt line.toList then
        let lineCount := maint005Count ctx.nextLines 100 0 false 0
        if lineCount > 50 then
          some { message := "Function is " ++ toString lineCount ++ " lines (>50 lines)",
                 fix := some "Extract logic into smaller functions" }
        else none
      else none) }

def maintainabilityRules : List GeneralRule :=
  [maint001, maint002, maint003, maint004, maint005]

/-! ### The general-practices rule engine -/

def allRules : List GeneralRule :=
  securityRules ++ errorHandlingRules ++ performanceRules ++
  reliabilityRules ++ maintainabilityRules

/-- Run every rule on one line, in registration order: critical/high
findings become violations, the rest become warnings.  There is no
try/catch in the source loop, so a raising check propagates through the
`Except` monad. -/
def runRulesOnLine (rules : List GeneralRule) (filename : String) (lineNum : ℕ)
    (line : String) (lctx : LineContext) :
    List Violation × List Warning → Except String (List Violation × List Warning) :=
  fun acc =>
    rules.foldlM (fun acc2 rule => do
      let r ← rule.check line lineNum lctx
      match r with
      | some rv =>
        if rule.severity = .critical || rule.severity = .high then
          pure (acc2.1 ++ [{ file := filename, line := lineNum, rule := rule.id,
                             message := rv.message, severity := rule.severity,
                             fix := rv.fix }], acc2.2)
        else
          pure (acc2.1, acc2.2 ++ [{ file := filename, line := lineNum,
                                     rule := rule.id, message := rv.message }])
      | none => pure acc2) acc

/-- The `lineContext` built for each line by `validateGeneralPractices`. -/
def buildLineContext (filename content : String) (lines : List String)
    (idx : ℕ) : LineContext :=
  { prevLines := jsSlice lines (idx - 15) idx,
    nextLines := jsSlice lines (idx + 1) (min (idx + 30) lines.length),
    fullContent := content,
    filename := filename,
    inFunction := checkInFunction lines idx,
    inClass := checkInClass lines idx,
    inTryCatch := checkInTryCatch lines idx }

/-- The rule engine of `validateGeneralPractices`, generic in the rule
list: every rule is run on every line of every file (with no exception
handling around the checks). -/
def runGeneralRules (rules : List GeneralRule) (ctx : ValidationContext) :
    Except String ValidationResult := do
  let acc ← ctx.foldlM (fun acc f =>
    let lines := jsLines f.2
    lines.enum.foldlM (fun acc2 p =>
      runRulesOnLine rules f.1 (p.1 + 1) p.2
        (buildLineContext f.1 f.2 lines p.1) acc2) acc) ([], [])
  let violations := acc.1
  let warnings := acc.2
  let criticalCount := (violations.filter (fun v => v.severity = .critical)).length
  let highCount := (violations.filter (fun v => v.severity = .high)).length
  let score : ℚ :=
    max 0 (1 - (criticalCount : ℚ) * (3/10) - (highCount : ℚ) * (1/10) -
      (warnings.length : ℚ) * (2/100))
  pure { sopFile := "general-practices", metric := "general-best-practices",
         score := score,
         passed := criticalCount = 0,
         violations := violations, warnings := warnings, suggestions := [] }

def validateGeneralPractices (ctx : ValidationContext) : Except String ValidationResult :=
  runGeneralRules allRules ctx

/-! ## The validator registry (`validators` object of `validators.ts`) -/

def validatorsRegistry : List (String × (ValidationContext → ValidationResult)) :=
  [("supabase-auth", validateSupabaseAuth),
   ("tenant-isolation", validateTenantIsolation),
   ("audit-logging", validateAuditLogging),
   ("prisma-queries", validatePrismaQueries),
   ("transactions", validateTransactions),
   ("code-safety", validateCodeSafetyPatterns),
   ("exception-types", validateExceptionTypes),
   ("logging", validateLogging),
   ("external-services", validateExternalServicePatterns),
   ("job-processing", validateJobProcessing),
   ("api-design", validateApiDesign),
   ("code-quality", validateCodeQuality)]

/-! ## `self-correction.ts` -/

structure CorrectionConfig where
  maxIterations : ℕ
  autoFix : Bool
  fixRules : Option (List String) := none
  skipRules : Option (List String) := none
deriving DecidableEq, Repr

structure AppliedFix where
  rule : String
  line : ℕ
  description : String
  before : String
  after : String
deriving DecidableEq, Repr

structure CorrectionResult where
  original : String
  corrected : String
  appliedFixes : List AppliedFix
  remainingViolations : List Violation
deriving DecidableEq, Repr

/-- A fix pattern: the source's regex + replacement pair is fused into
one global-replacement function per pattern. -/
structure FixPattern where
  rule : String
  description : String
  applyPattern : String → String

/-- The `throw new Error('…message…')` matcher shared by the three
`INV-ERROR-TYPE` patterns, regex
`throw\s+new\s+Error\(\s*['"]([^'"]*…[^'"]*)['"][\s)]` with `/gi`:
returns the captured message (original case) and the rest after the
final `[\s)]` character, when the message satisfies `msgTest`. -/
def errThrowMatchAt (msgTest : Chars → Bool) (cs : Chars) : Option (Chars × Chars) :=
  (litCI "throw" cs).bind (fun r =>
    (wsPlus r).bind (fun r2 =>
      (litCI "new" r2).bind (fun r3 =>
        (wsPlus r3).bind (fun r4 =>
          (litCI "Error" r4).bind (fun r5 =>
            (lit "(" r5).bind (fun r6 =>
              (oneOf isQuote (wsStar r6)).bind (fun q =>
                let w := classStar (fun c => !isQuote c) q.2
                (oneOf isQuote w.2).bind (fun q2 =>
                  (oneOf (fun c => isWS c || c = ')') q2.2).bind (fun t =>
                    if msgTest w.1 then some (w.1, t.2) else none)))))))))

/-- `not\s*found` matched case-insensitively somewhere in the message. -/
def hasNotFoundCI (cs : Chars) : Bool :=
  (lowerC cs).tails.any (fun t =>
    ((lit "not" t).bind (fun r => lit "found" (wsStar r))).isSome)

/-- Global replacement for one `INV-ERROR-TYPE` pattern. -/
def fixErrTo (exc : String) (msgTest : Chars → Bool) (s : String) : String :=
  globalReplace (fun cs => (errThrowMatchAt msgTest cs).map (fun p =>
    (("throw new " ++ exc ++ "(\x27").toList ++ p.1 ++ "\x27)".toList, p.2))) s

/-- `conditions.trim().replace(/,?\s*$/, '')` followed by the appended
`deleted_at` filter. -/
def softDeleteNewCond (conds : Chars) : Chars :=
  let t := (jsTrim (String.mk conds)).toList
  let t' := if t.getLast? = some ',' then t.dropLast else t
  t' ++ ",\n      deleted_at: null,".toList

/-- The `INV-PRISMA-SOFT-DELETE` pattern, regex
`(prisma\.(organizations|teams|rubrics|role_plays)\.find\w+\(\s*\x7b\s*where:\s*\x7b)([^\x7d]+)(\x7d\s*\x7d\))`
with its function replacement: returns the replacement text and the rest. -/
def softDeleteMatchAt (cs : Chars) : Option (Chars × Chars) :=
  (lit "prisma." cs).bind (fun r =>
    (altLits ["organizations", "teams", "rubrics", "role_plays"] r).bind (fun ent =>
      (lit ".find" ent.2).bind (fun r2 =>
        (classPlus isWordChar r2).bind (fun w =>
          (lit "(" w.2).bind (fun r3 =>
            (lit "\x7b" (wsStar r3)).bind (fun r4 =>
              (lit "where:" (wsStar r4)).bind (fun r5 =>
                (lit "\x7b" (wsStar r5)).bind (fun r6 =>
                  (classPlus (fun c => c ≠ '\x7d') r6).bind (fun conds =>
                    (lit "\x7d" conds.2).bind (fun r7 =>
                      (lit "\x7d" (wsStar r7)).bind (fun r8 =>
                        (lit ")" r8).map (fun rest =>
                          let fullMatch := cs.take (cs.length - rest.length)
                          if containsC conds.1 "deleted_at" then (fullMatch, rest)
                          else
                            let prefixText := cs.take (cs.length - r6.length)
                            let suffixText := conds.2.take (conds.2.length - rest.length)
                            (prefixText ++ softDeleteNewCond conds.1 ++ suffixText,
                             rest)))))))))))))

/-- The `INV-PRISMA-ORDERBY` pattern, regex
`(\.findMany\(\s*\x7b\s*where:\s*\x7b[^\x7d]+\x7d\s*)(\x7d\))` with
replacement `$1,\n    orderBy: \x7b created_at: 'desc' \x7d,\n  $2`. -/
def orderByMatchAt (cs : Chars) : Option (Chars × Chars) :=
  (lit ".findMany(" cs).bind (fun r =>
    (lit "\x7b" (wsStar r)).bind (fun r2 =>
      (lit "where:" (wsStar r2)).bind (fun r3 =>
        (lit "\x7b" (wsStar r3)).bind (fun r4 =>
          (classPlus (fun c => c ≠ '\x7d') r4).bind (fun conds =>
            (lit "\x7d" conds.2).bind (fun r5 =>
              let rw := wsStar r5
              (lit "\x7d)" rw).map (fun rest =>
                let g1 := cs.take (cs.length - rw.length)
                (g1 ++ ",\n    orderBy: \x7b created_at: \x27desc\x27 \x7d,\n  ".toList ++
                 "\x7d)".toList, rest))))))))

def FIX_PATTERNS : List FixPattern :=
  [ { rule := "INV-ERROR-TYPE",
      description := "Replace generic Error with NotFoundException",
      applyPattern := fixErrTo "NotFoundException" hasNotFoundCI },
    { rule := "INV-ERROR-TYPE",
      description := "Replace generic Error with BadRequestException",
      applyPattern := fixErrTo "BadRequestException"
        (fun cs => containsC (lowerC cs) "invalid") },
    { rule := "INV-ERROR-TYPE",
      description := "Replace generic Error with ForbiddenException",
      applyPattern := fixErrTo "ForbiddenException"
        (fun cs => containsC (lowerC cs) "denied") },
    { rule := "INV-LOGGER", description := "Replace console.log with Logger",
      applyPattern := fun s => replaceAllLit s "console.log(" "this.logger.log(" },
    { rule := "INV-LOGGER", description := "Replace console.error with Logger",
      applyPattern := fun s => replaceAllLit s "console.error(" "this.logger.error(" },
    { rule := "INV-LOGGER", description := "Replace console.warn with Logger",
      applyPattern := fun s => replaceAllLit s "console.warn(" "this.logger.warn(" },
    { rule := "INV-LOGGER", description := "Replace console.debug with Logger",
      applyPattern := fun s => replaceAllLit s "console.debug(" "this.logger.debug(" },
    { rule := "INV-PRISMA-SOFT-DELETE", description := "Add deleted_at: null filter",
      applyPattern := fun s => globalReplace softDeleteMatchAt s },
    { rule := "INV-PRISMA-ORDERBY", description := "Add orderBy clause to findMany",
      applyPattern := fun s => globalReplace orderByMatchAt s } ]

/-- `IMPORT_FIXES` (`Object.entries` order). -/
def IMPORT_FIXES : List (String × String) :=
  [("NotFoundException", "import \x7b NotFoundException \x7d from \x27@nestjs/common\x27;"),
   ("BadRequestException", "import \x7b BadRequestException \x7d from \x27@nestjs/common\x27;"),
   ("ForbiddenException", "import \x7b ForbiddenException \x7d from \x27@nestjs/common\x27;"),
   ("UnauthorizedException", "import \x7b UnauthorizedException \x7d from \x27@nestjs/common\x27;"),
   ("ConflictException", "import \x7b ConflictException \x7d from \x27@nestjs/common\x27;"),
   ("Logger", "import \x7b Logger \x7d from \x27@nestjs/common\x27;")]

/-- Regex `import\s*\x7b([^\x7d]+)\x7d\s*from\s*['"]@nestjs\/common['"]`:
returns the full matched text and the captured import list. -/
def importNestAt (cs : Chars) : Option (String × String) :=
  (lit "import" cs).bind (fun r =>
    (lit "\x7b" (wsStar r)).bind (fun r2 =>
      (classPlus (fun c => c ≠ '\x7d') r2).bind (fun g =>
        (lit "\x7d" g.2).bind (fun r3 =>
          (lit "from" (wsStar r3)).bind (fun r4 =>
            (oneOf isQuote (wsStar r4)).bind (fun q =>
              (lit "@nestjs/common" q.2).bind (fun r5 =>
                (oneOf isQuote r5).map (fun q2 =>
                  (String.mk (cs.take (cs.length - q2.2.length)), String.mk g.1)))))))))

/-- `Object.values(validators)` of `validators.ts`, as used by the
self-correction sweeps. -/
def validatorSweep (ctx : ValidationContext) : List Violation :=
  (validatorsRegistry.map (fun p => (p.2 ctx).violations)).flatten

/-- `applyFixes`. -/
def applyFixes (content : String) (violations : List Violation)
    (config : CorrectionConfig) : CorrectionResult :=
  let patternStep := fun (acc : String × List AppliedFix) (p : FixPattern) =>
    if (config.skipRules.getD []).contains p.rule then acc
    else if (match config.fixRules with
             | some fr => !fr.contains p.rule
             | none => false) then acc
    else if !(violations.any (fun v => v.rule = p.rule)) then acc
    else
      let before := acc.1
      let corrected := p.applyPattern before
      if before ≠ corrected then
        let affected := violations.filter (fun v => v.rule = p.rule)
        (corrected, acc.2 ++ affected.map (fun v =>
          { rule := p.rule, line := v.line, description := p.description,
            before := (jsLines before).getD (v.line - 1) "",
            after := (jsLines corrected).getD (v.line - 1) "" }))
      else acc
  let afterPatterns := FIX_PATTERNS.foldl patternStep (content, [])
  let importStep := fun (acc : String × List AppliedFix × List String)
      (im : String × String) =>
    let corrected := acc.1
    if sContains corrected im.1 && !sContains corrected im.2 then
      match firstMatch importNestAt corrected with
      | some (_, fg) =>
        let imports := (splitChar fg.2 ',').map jsTrim
        if !imports.contains im.1 then
          let newStr := "import \x7b " ++ String.intercalate ", " (imports ++ [im.1]) ++
            " \x7d from \x27@nestjs/common\x27"
          (replaceFirstLit corrected fg.1 newStr,
           acc.2.1 ++ [{ rule := "INV-IMPORT", line := 1,
                         description := "Add " ++ im.1 ++ " to existing import",
                         before := fg.1, after := newStr }],
           acc.2.2)
        else acc
      | none =>
        (corrected, acc.2.1,
         if acc.2.2.contains im.2 then acc.2.2 else acc.2.2 ++ [im.2])
    else acc
  let afterImports := IMPORT_FIXES.foldl importStep
    (afterPatterns.1, afterPatterns.2, [])
  let corrected2 := afterImports.1
  let fixes2 := afterImports.2.1
  let needed := afterImports.2.2
  let withBlock :=
    if needed.length > 0 then
      let importBlock := String.intercalate "\n" needed ++ "\n"
      (importBlock ++ corrected2,
       fixes2 ++ [{ rule := "INV-IMPORT", line := 1,
                    description := "Add missing imports",
                    before := "", after := jsTrim importBlock }])
    else (corrected2, fixes2)
  { original := content, corrected := withBlock.1, appliedFixes := withBlock.2,
    remainingViolations := validatorSweep [("corrected.ts", withBlock.1)] }

structure CorrectionLoopResult where
  iterations : ℕ
  initialViolations : ℕ
  finalViolations : ℕ
  correctionHistory : List CorrectionResult
  finalContent : String
  success : Bool
deriving DecidableEq, Repr

/-- The `while (iterations < config.maxIterations && allViolations.length
> 0)` loop of `runCorrectionLoop`, with the remaining iteration budget as
fuel.  The loop breaks (without updating the content) when an iteration
applies no fixes. -/
def correctionLoopAux (config : CorrectionConfig) :
    ℕ → String → List Violation → ℕ → List CorrectionResult →
    ℕ × String × List Violation × List CorrectionResult
  | 0, content, viols, iters, hist => (iters, content, viols, hist)
  | fuel + 1, content, viols, iters, hist =>
    if viols.length = 0 then (iters, content, viols, hist)
    else
      let result := applyFixes content viols config
      let hist' := hist ++ [result]
      if result.appliedFixes.length = 0 then (iters + 1, content, viols, hist')
      else correctionLoopAux config fuel result.corrected
        result.remainingViolations (iters + 1) hist'

def runCorrectionLoop (content : String)
    (config : CorrectionConfig := { maxIterations := 3, autoFix := true }) :
    CorrectionLoopResult :=
  let initialViols := validatorSweep [("file.ts", content)]
  let r := correctionLoopAux config config.maxIterations content initialViols 0 []
  { iterations := r.1,
    initialViolations := initialViols.length,
    finalViolations := r.2.2.1.length,
    correctionHistory := r.2.2.2,
    finalContent := r.2.1,
    success := r.2.2.1.length = 0 }

/-! ## Concrete test inputs and final helper definitions -/

/-- Scenario A content: one async function body with `create` calls on
two different tables and no `$transaction`. -/
def scenarioAContent : String :=
  "async createBoth(data) \x7b\n  const a = await prisma.users.create(\x7b data \x7d);\n  const b = await prisma.posts.create(\x7b data \x7d);\n\x7d\n"

/-- Scenario B content: the same two writes wrapped in a `$transaction`
combinator. -/
def scenarioBContent : String :=
  "async createBoth(data) \x7b\n  return prisma.$transaction([\n    prisma.users.create(\x7b data \x7d),\n    prisma.posts.create(\x7b data \x7d),\n  ]);\n\x7d\n"

/-- Content that logs sensitive data (a critical `INV-LOG-SENSITIVE`
finding) but contains no `throw` at all. -/
def sensitiveLogContent : String := "this.logger.log(password);"

/-- Content with one fixable violation (`console.log`) and one violation
no fix pattern rewrites (`throw new Error('oops')`). -/
def mixedFixContent : String :=
  "console.log(x);\nthrow new Error(\x27oops\x27)"

/-- A rule whose check throws, exercising the engine's (absent)
exception handling.  `GeneralRule.check` is an arbitrary function field
in the source, so a raising check is a legal catalog entry. -/
def faultyRule : GeneralRule :=
  { id := "SEC-999", name := "raising rule",
    description := "a rule whose check function throws",
    category := "security", severity := .critical,
    check := fun _ _ _ => .error "TypeError: boom" }

/-- `Bool`-valued success test for `Except`. -/
def isOkE : Except String α → Bool
  | .ok _ => true
  | .error _ => false

/-- The check of one `GeneralRule` succeeds (does not throw) on every
line of every file of the context, at the contexts the engine builds. -/
def allChecksOk (rules : List GeneralRule) (ctx : ValidationContext) : Bool :=
  ctx.all (fun f =>
    (jsLines f.2).enum.all (fun p =>
      rules.all (fun rule =>
        isOkE (rule.check p.2 (p.1 + 1) (buildLineContext f.1 f.2 (jsLines f.2) p.1)))))

/-! ## Theorems -/

/-- The blocking-metric loop returns `none` when no blocking metric with
a present score is below its `fail` threshold. -/
lemma checkBlockingMetrics_none (scores : ScoresMap) :
    ∀ L : List MetricDefinition,
      (∀ m ∈ L, ∀ s, mapGet scores m.name = some s → ¬ s < m.thresholds.fail) →
      checkBlockingMetrics scores L = none := by
  intro L
  induction L with
  | nil => intro _; rfl
  | cons m rest ih =>
    intro h
    unfold checkBlockingMetrics
    cases hm : mapGet scores m.name with
    | none => exact ih (fun m' hm' => h m' (List.mem_cons_of_mem _ hm'))
    | some s =>
      dsimp only
      rw [if_neg (h m (List.mem_cons_self _ _) s hm)]
      exact ih (fun m' hm' => h m' (List.mem_cons_of_mem _ hm'))

/-- The accumulating fold of `calculateWeightedScore` ignores metrics
that are absent from the scores map. -/
lemma weightedFold_absent (scores : ScoresMap) :
    ∀ (L : List MetricDefinition) (acc : ℚ × ℚ),
      (∀ m ∈ L, mapGet scores m.name = none) →
      L.foldl (fun (acc : ℚ × ℚ) m =>
        match mapGet scores m.name with
        | some score => (acc.1 + score * m.weight, acc.2 + m.weight)
        | none => acc) acc = acc := by
  intro L
  induction L with
  | nil => intro acc _; rfl
  | cons m rest ih =>
    intro acc h
    have hm := h m (List.mem_cons_self _ _)
    simp only [List.foldl_cons, hm]
    exact ih acc (fun m' hm' => h m' (List.mem_cons_of_mem _ hm'))

set_option maxRecDepth 100000 in
/-- **C8** (confirmed): for the transactions validator, a file whose
content has one async function body with `prisma` `create` calls on two
different tables and no `$transaction` yields exactly one violation,
whose rule is `INV-PRISMA-TRANSACTION`, with `passed = false`; the same
writes wrapped in a `$transaction` combinator yield no violations and
`passed = true`. -/
theorem transactions_scenario_single_violation :
    ((validateTransactions [("users.service.ts", scenarioAContent)]).violations.map
        (fun v => v.rule) = ["INV-PRISMA-TRANSACTION"] ∧
      (validateTransactions [("users.service.ts", scenarioAContent)]).passed = false) ∧
    ((validateTransactions [("users.service.ts", scenarioBContent)]).violations = [] ∧
      (validateTransactions [("users.service.ts", scenarioBContent)]).passed = true) := by
  decide

/-- **C7** (counterexample): a scores map whose aggregate weighted score
is exactly `0.80` on which `evaluateGating` under
`DEFAULT_GATING_CONFIG` (so `minimumScore = 0.85`) with zero blockers
fails with a *blocking-metric* reason, not an aggregate-score reason:
the claim's universally quantified form is false. -/
theorem gating_aggregate_claim_counterexample :
    calculateWeightedScore [("supabase-auth", (4 : ℚ)/5)] = 4/5 ∧
    DEFAULT_GATING_CONFIG.minimumScore = 85/100 ∧
    evaluateGating [("supabase-auth", (4 : ℚ)/5)] 0 0 DEFAULT_GATING_CONFIG =
      { passed := false,
        reason := some (.blockingMetric "Supabase Auth Compliance" (4/5) (9/10)) } := by
  refine ⟨?_, by norm_num [DEFAULT_GATING_CONFIG], ?_⟩
  · simp [calculateWeightedScore, METRIC_DEFINITIONS, mapGet, List.find?]
  · simp [evaluateGating, DEFAULT_GATING_CONFIG, getBlockingMetrics,
      checkBlockingMetrics, METRIC_DEFINITIONS, List.filter, mapGet, List.find?]
    rw [if_pos (by norm_num : (4 : ℚ)/5 < 9/10)]

/-- **C7** (amended): for every scores map with aggregate weighted score
`0.80` in which no `blockOnFail` metric with a present score is below
its `fail` threshold, `evaluateGating` under `DEFAULT_GATING_CONFIG`
with zero blockers returns `passed = false` with the aggregate-score
reason (the total `0.80` against the minimum `0.85`). -/
theorem gating_aggregate_below_minimum (scores : ScoresMap) (w : ℕ)
    (hagg : calculateWeightedScore scores = 4/5)
    (hblock : checkBlockingMetrics scores getBlockingMetrics = none) :
    evaluateGating scores 0 w DEFAULT_GATING_CONFIG =
      { passed := false, reason := some (.totalScore (4/5) (85/100)) } := by
  unfold evaluateGating
  rw [if_neg (by simp [DEFAULT_GATING_CONFIG])]
  rw [if_neg (by simp [DEFAULT_GATING_CONFIG])]
  rw [hblock]
  simp only [hagg, DEFAULT_GATING_CONFIG]
  norm_num

/-- Witness for `gating_aggregate_below_minimum` at a concrete scores
map (`exception-types` is not a blocking metric). -/
theorem gating_aggregate_below_minimum_witness :
    evaluateGating [("exception-types", (4 : ℚ)/5)] 0 0 DEFAULT_GATING_CONFIG =
      { passed := false, reason := some (.totalScore (4/5) (85/100)) } :=
  gating_aggregate_below_minimum [("exception-types", (4 : ℚ)/5)] 0
    (by simp [calculateWeightedScore, METRIC_DEFINITIONS, mapGet, List.find?])
    (by decide)

/-- **C10** (confirmed): on a scores map with no entry for any metric of
`METRIC_DEFINITIONS`, `calculateWeightedScore` returns exactly `1.0`
(its `totalWeight = 0` branch), and `evaluateGating` with zero blockers
and zero warnings under `DEFAULT_GATING_CONFIG` passes. -/
theorem emptyScores_weightedScore_one (scores : ScoresMap)
    (h : ∀ m ∈ METRIC_DEFINITIONS, mapGet scores m.name = none) :
    calculateWeightedScore scores = 1 ∧
    evaluateGating scores 0 0 DEFAULT_GATING_CONFIG = { passed := true, reason := none } := by
  have hc : calculateWeightedScore scores = 1 := by
    unfold calculateWeightedScore
    rw [weightedFold_absent scores METRIC_DEFINITIONS (0, 0) h]
    norm_num
  refine ⟨hc, ?_⟩
  unfold evaluateGating
  rw [if_neg (by simp [DEFAULT_GATING_CONFIG])]
  rw [if_neg (by simp [DEFAULT_GATING_CONFIG])]
  rw [checkBlockingMetrics_none scores getBlockingMetrics
    (fun m hm s hs => by
      have := h m (List.mem_of_mem_filter hm)
      rw [this] at hs
      exact absurd hs (by simp))]
  simp only [hc, DEFAULT_GATING_CONFIG]
  norm_num

/-- Witness for `emptyScores_weightedScore_one` at the empty map (a run
over zero files). -/
theorem emptyScores_weightedScore_one_witness :
    calculateWeightedScore [] = 1 ∧
    evaluateGating [] 0 0 DEFAULT_GATING_CONFIG = { passed := true, reason := none } :=
  emptyScores_weightedScore_one [] (by decide)

/-- **C9** (confirmed): `validateExceptionTypes` computes its `passed`
flag solely from the NestJS-to-total throw ratio (`passed` iff the score
ratio is at least `0.9`, with score `1.0` when no line contains a throw);
in particular a context whose content logs sensitive data (one critical
`INV-LOG-SENSITIVE` violation) but contains no `throw new Error(` still
gets `score = 1.0` and `passed = true`. -/
theorem exceptionTypes_passed_from_ratio :
    (∀ ctx : ValidationContext,
      (validateExceptionTypes ctx).passed =
        decide ((9 : ℚ)/10 ≤ (validateExceptionTypes ctx).score)) ∧
    (∀ ctx : ValidationContext,
      (∀ f ∈ ctx, ∀ line ∈ jsLines f.2,
        testAnyC reThrowErrorAt line.toList = false ∧
        nestExceptions.any (fun ex => sContains line ("throw new " ++ ex)) = false) →
      (validateExceptionTypes ctx).score = 1 ∧
      (validateExceptionTypes ctx).passed = true) ∧
    ((validateExceptionTypes [("auth.service.ts", sensitiveLogContent)]).score = 1 ∧
     (validateExceptionTypes [("auth.service.ts", sensitiveLogContent)]).passed = true ∧
     (validateExceptionTypes [("auth.service.ts", sensitiveLogContent)]).violations.map
       (fun v => (v.rule, v.severity)) = [("INV-LOG-SENSITIVE", Severity.critical)]) := by
  have hpassedOfScore : ∀ ctx : ValidationContext,
      (validateExceptionTypes ctx).passed =
        decide ((9 : ℚ)/10 ≤ (validateExceptionTypes ctx).score) :=
    fun _ => rfl
  have hnoThrow : ∀ ctx : ValidationContext,
      (∀ f ∈ ctx, ∀ line ∈ jsLines f.2,
        testAnyC reThrowErrorAt line.toList = false ∧
        nestExceptions.any (fun ex => sContains line ("throw new " ++ ex)) = false) →
      (validateExceptionTypes ctx).score = 1 ∧
      (validateExceptionTypes ctx).passed = true := by
    intro ctx h
    have hzero : ∀ t ∈ exceptionTypesPerLine ctx, t.2.2.1 = 0 ∧ t.2.2.2 = 0 := by
      intro t ht
      simp only [exceptionTypesPerLine, List.mem_flatten, List.mem_map] at ht
      obtain ⟨sub, ⟨f, hf, rfl⟩, ht⟩ := ht
      simp only [List.mem_map] at ht
      obtain ⟨p, hp, rfl⟩ := ht
      have hp2 : p.2 ∈ jsLines f.2 := List.get?_mem (List.mem_enum_iff_get?.mp hp)
      have hl := h f hf p.2 hp2
      simp only [String.toList] at hl
      constructor
      · simp [exceptionTypesLine, hl.2]
      · simp [exceptionTypesLine, hl.1]
    have hnest : ((exceptionTypesPerLine ctx).map (fun t => t.2.2.1)).sum = 0 :=
      List.sum_eq_zero (by
        intro x hx
        obtain ⟨t, ht, rfl⟩ := List.mem_map.mp hx
        exact (hzero t ht).1)
    have hgen : ((exceptionTypesPerLine ctx).map (fun t => t.2.2.2)).sum = 0 :=
      List.sum_eq_zero (by
        intro x hx
        obtain ⟨t, ht, rfl⟩ := List.mem_map.mp hx
        exact (hzero t ht).2)
    have hscore : (validateExceptionTypes ctx).score = 1 := by
      simp only [validateExceptionTypes]
      rw [hnest, hgen]
      norm_num
    refine ⟨hscore, ?_⟩
    rw [hpassedOfScore ctx, hscore]
    norm_num
  refine ⟨hpassedOfScore, hnoThrow, ?_, ?_, ?_⟩
  · exact (hnoThrow [("auth.service.ts", sensitiveLogContent)] (by decide)).1
  · exact (hnoThrow [("auth.service.ts", sensitiveLogContent)] (by decide)).2
  · decide

/-- If every blocking metric before `m` does not fail and `m` fails, the
blocking-metric loop stops at `m` with `m`'s score. -/
lemma checkBlockingMetrics_first (scores : ScoresMap) (m : MetricDefinition)
    (s : ℚ) (hs : mapGet scores m.name = some s) (hlt : s < m.thresholds.fail) :
    ∀ pre : List MetricDefinition,
      (∀ m' ∈ pre, ∀ s', mapGet scores m'.name = some s' → ¬ s' < m'.thresholds.fail) →
      ∀ post, checkBlockingMetrics scores (pre ++ m :: post) =
        some (.blockingMetric m.displayName s m.thresholds.fail) := by
  intro pre
  induction pre with
  | nil =>
    intro _ post
    simp only [List.nil_append]
    unfold checkBlockingMetrics
    rw [hs]
    dsimp only
    rw [if_pos hlt]
  | cons m' rest ih =>
    intro h post
    simp only [List.cons_append]
    unfold checkBlockingMetrics
    cases hm' : mapGet scores m'.name with
    | none => exact ih (fun x hx => h x (List.mem_cons_of_mem _ hx)) post
    | some s' =>
      dsimp only
      rw [if_neg (h m' (List.mem_cons_self _ _) s' hm')]
      exact ih (fun x hx => h x (List.mem_cons_of_mem _ hx)) post

/-- **C1** (confirmed): `evaluateGating` evaluates its checks in the
fixed order — blocker count, warning count, blocking metrics in
definition order, aggregate score — and the first failing check
determines the returned reason; the all-pass case returns `passed` with
no reason.  Determinism of the reason on identical inputs is immediate
because `evaluateGating` is a pure function of its arguments. -/
theorem evaluateGating_first_failing_check (scores : ScoresMap)
    (blockerCount warningCount : ℕ) (config : GatingConfig) :
    (config.blockOnBlockers = true → config.maxBlockers < blockerCount →
      evaluateGating scores blockerCount warningCount config =
        { passed := false, reason := some (.blockers blockerCount config.maxBlockers) }) ∧
    (¬(config.blockOnBlockers = true ∧ config.maxBlockers < blockerCount) →
      config.failOnWarnings = true → config.maxWarnings < warningCount →
      evaluateGating scores blockerCount warningCount config =
        { passed := false, reason := some (.warningCeiling warningCount config.maxWarnings) }) ∧
    (¬(config.blockOnBlockers = true ∧ config.maxBlockers < blockerCount) →
      ¬(config.failOnWarnings = true ∧ config.maxWarnings < warningCount) →
      ∀ pre m post, getBlockingMetrics = pre ++ m :: post →
      (∀ m' ∈ pre, ∀ s', mapGet scores m'.name = some s' → ¬ s' < m'.thresholds.fail) →
      ∀ s, mapGet scores m.name = some s → s < m.thresholds.fail →
      evaluateGating scores blockerCount warningCount config =
        { passed := false, reason := some (.blockingMetric m.displayName s m.thresholds.fail) }) ∧
    (¬(config.blockOnBlockers = true ∧ config.maxBlockers < blockerCount) →
      ¬(config.failOnWarnings = true ∧ config.maxWarnings < warningCount) →
      (∀ m ∈ getBlockingMetrics, ∀ s, mapGet scores m.name = some s → ¬ s < m.thresholds.fail) →
      calculateWeightedScore scores < config.minimumScore →
      evaluateGating scores blockerCount warningCount config =
        { passed := false,
          reason := some (.totalScore (calculateWeightedScore scores) config.minimumScore) }) ∧
    (¬(config.blockOnBlockers = true ∧ config.maxBlockers < blockerCount) →
      ¬(config.failOnWarnings = true ∧ config.maxWarnings < warningCount) →
      (∀ m ∈ getBlockingMetrics, ∀ s, mapGet scores m.name = some s → ¬ s < m.thresholds.fail) →
      ¬ calculateWeightedScore scores < config.minimumScore →
      evaluateGating scores blockerCount warningCount config =
        { passed := true, reason := none }) := by
  refine ⟨?_, ?_, ?_, ?_, ?_⟩
  · intro h1 h2
    unfold evaluateGating
    rw [if_pos ⟨h1, h2⟩]
  · intro hn h1 h2
    unfold evaluateGating
    rw [if_neg hn, if_pos ⟨h1, h2⟩]
  · intro hn1 hn2 pre m post hdecomp hpre s hs hlt
    unfold evaluateGating
    rw [if_neg hn1, if_neg hn2, hdecomp,
      checkBlockingMetrics_first scores m s hs hlt pre hpre post]
  · intro hn1 hn2 hnofail hlt
    unfold evaluateGating
    rw [if_neg hn1, if_neg hn2,
      checkBlockingMetrics_none scores getBlockingMetrics hnofail]
    dsimp only
    rw [if_pos hlt]
  · intro hn1 hn2 hnofail hge
    unfold evaluateGating
    rw [if_neg hn1, if_neg hn2,
      checkBlockingMetrics_none scores getBlockingMetrics hnofail]
    dsimp only
    rw [if_neg hge]

/-- Witness for `evaluateGating_first_failing_check`: each of the five
gating branches exercised at concrete inputs. -/
theorem evaluateGating_first_failing_check_witness :
    (evaluateGating [] 1 0 DEFAULT_GATING_CONFIG =
      { passed := false, reason := some (.blockers 1 0) }) ∧
    (evaluateGating [] 0 1 STRICT_GATING_CONFIG =
      { passed := false, reason := some (.warningCeiling 1 0) }) ∧
    (evaluateGating [("supabase-auth", (4 : ℚ)/5)] 0 0 DEFAULT_GATING_CONFIG =
      { passed := false,
        reason := some (.blockingMetric "Supabase Auth Compliance" (4/5) (9/10)) }) ∧
    (evaluateGating [("exception-types", (4 : ℚ)/5)] 0 0 DEFAULT_GATING_CONFIG =
      { passed := false,
        reason := some (.totalScore
          (calculateWeightedScore [("exception-types", (4 : ℚ)/5)]) (85/100)) }) ∧
    (evaluateGating [] 0 0 DEFAULT_GATING_CONFIG = { passed := true, reason := none }) := by
  refine ⟨?_, ?_, ?_, ?_, ?_⟩
  · exact (evaluateGating_first_failing_check [] 1 0 DEFAULT_GATING_CONFIG).1
      rfl (by decide)
  · exact (evaluateGating_first_failing_check [] 0 1 STRICT_GATING_CONFIG).2.1
      (by decide) rfl (by decide)
  · exact (evaluateGating_first_failing_check [("supabase-auth", (4 : ℚ)/5)] 0 0
      DEFAULT_GATING_CONFIG).2.2.1 (by decide) (by decide) []
      { name := "supabase-auth", displayName := "Supabase Auth Compliance",
        sopFile := "2-supabase", weight := 15/100, blockOnFail := true,
        thresholds := { pass := 1, warn := 95/100, fail := 9/10 } }
      (getBlockingMetrics.drop 1) rfl (by simp) (4/5) rfl (by norm_num)
  · exact (evaluateGating_first_failing_check [("exception-types", (4 : ℚ)/5)] 0 0
      DEFAULT_GATING_CONFIG).2.2.2.1 (by decide) (by decide)
      (by
        intro m hm s hs
        simp [getBlockingMetrics, METRIC_DEFINITIONS] at hm
        rcases hm with h | h | h | h | h <;> subst h <;>
          simp [mapGet, List.find?] at hs)
      (by
        rw [show calculateWeightedScore [("exception-types", (4 : ℚ)/5)] = 4/5 from by
          simp [calculateWeightedScore, METRIC_DEFINITIONS, mapGet, List.find?]]
        norm_num [DEFAULT_GATING_CONFIG])
  · exact (evaluateGating_first_failing_check [] 0 0 DEFAULT_GATING_CONFIG).2.2.2.2
      (by decide) (by decide)
      (by intro m hm s hs; exact absurd hs (by simp [mapGet]))
      (by
        rw [show calculateWeightedScore [] = 1 from by
          unfold calculateWeightedScore
          rw [weightedFold_absent [] METRIC_DEFINITIONS (0, 0) (fun m _ => rfl)]
          norm_num]
        norm_num [DEFAULT_GATING_CONFIG])

/-- The accumulating fold of `calculateWeightedScore` computes the sum
of the present weighted scores alongside the sum of the present
weights. -/
lemma weightedFold_sums (scores : ScoresMap) :
    ∀ (L : List MetricDefinition) (acc : ℚ × ℚ),
      L.foldl (fun (acc : ℚ × ℚ) m =>
        match mapGet scores m.name with
        | some score => (acc.1 + score * m.weight, acc.2 + m.weight)
        | none => acc) acc =
      (acc.1 + ((L.filter (fun m => (mapGet scores m.name).isSome)).map
          (fun m => ((mapGet scores m.name).getD 0) * m.weight)).sum,
       acc.2 + ((L.filter (fun m => (mapGet scores m.name).isSome)).map
          (fun m => m.weight)).sum) := by
  intro L
  induction L with
  | nil => intro acc; simp
  | cons m rest ih =>
    intro acc
    cases hm : mapGet scores m.name with
    | none =>
      simp only [List.foldl_cons, hm, List.filter_cons]
      simp only [hm, Option.isSome_none, Bool.false_eq_true, if_false]
      exact ih acc
    | some s =>
      simp only [List.foldl_cons, hm, List.filter_cons]
      simp only [hm, Option.isSome_some, if_true]
      rw [ih]
      simp only [List.map_cons, List.sum_cons, hm, Option.getD_some, Prod.mk.injEq]
      constructor <;> ring

/-- `mapGet` is invariant under permutations of a map with distinct
keys. -/
lemma mapGet_perm : ∀ {l1 l2 : ScoresMap}, l1.Perm l2 →
    (l1.map Prod.fst).Nodup → ∀ k, mapGet l1 k = mapGet l2 k := by
  intro l1 l2 h
  induction h with
  | nil => intro _ _; rfl
  | cons x p ih =>
    intro hnd k
    by_cases hx : x.1 = k
    · simp only [mapGet]
      rw [List.find?_cons_of_pos _ (by simp [hx]),
        List.find?_cons_of_pos _ (by simp [hx])]
    · simp only [mapGet] at ih ⊢
      rw [List.find?_cons_of_neg _ (by simp [hx]),
        List.find?_cons_of_neg _ (by simp [hx])]
      have hnd' : (List.map Prod.fst _ ).Nodup := (List.nodup_cons.mp (by simpa using hnd)).2
      simpa using ih (by simpa using hnd') k
  | swap x y l =>
    intro hnd k
    have hxy : y.1 ≠ x.1 := by
      simp only [List.map_cons, List.nodup_cons, List.mem_cons] at hnd
      exact fun hEq => hnd.1 (Or.inl hEq)
    by_cases hy : y.1 = k <;> by_cases hx : x.1 = k
    · exact absurd (hy.trans hx.symm) hxy
    · simp only [mapGet]
      rw [List.find?_cons_of_pos _ (by simp [hy]),
        List.find?_cons_of_neg _ (by simp [hx]),
        List.find?_cons_of_pos _ (by simp [hy])]
    · simp only [mapGet]
      rw [List.find?_cons_of_neg _ (by simp [hy]),
        List.find?_cons_of_pos _ (by simp [hx]),
        List.find?_cons_of_pos _ (by simp [hx])]
    · simp only [mapGet]
      rw [List.find?_cons_of_neg _ (by simp [hy]),
        List.find?_cons_of_neg _ (by simp [hx]),
        List.find?_cons_of_neg _ (by simp [hx]),
        List.find?_cons_of_neg _ (by simp [hy])]
  | trans p1 p2 ih1 ih2 =>
    intro hnd k
    refine (ih1 hnd k).trans (ih2 ?_ k)
    exact ((p1.map Prod.fst).nodup_iff).mp hnd

/-- `calculateWeightedScore` depends on the map only through `mapGet`. -/
lemma calculateWeightedScore_congr {l1 l2 : ScoresMap}
    (h : ∀ k, mapGet l1 k = mapGet l2 k) :
    calculateWeightedScore l1 = calculateWeightedScore l2 := by
  unfold calculateWeightedScore
  have hfold : ∀ (L : List MetricDefinition) (acc : ℚ × ℚ),
      L.foldl (fun (acc : ℚ × ℚ) m =>
        match mapGet l1 m.name with
        | some score => (acc.1 + score * m.weight, acc.2 + m.weight)
        | none => acc) acc =
      L.foldl (fun (acc : ℚ × ℚ) m =>
        match mapGet l2 m.name with
        | some score => (acc.1 + score * m.weight, acc.2 + m.weight)
        | none => acc) acc := by
    intro L
    induction L with
    | nil => intro _; rfl
    | cons m rest ih =>
      intro acc
      simp only [List.foldl_cons, h m.name]
      exact ih _
  rw [hfold]

/-- Every metric weight in the catalog is positive. -/
lemma metric_weights_pos : ∀ m ∈ METRIC_DEFINITIONS, 0 < m.weight := by
  intro m hm
  fin_cases hm <;> norm_num

/-- **C2** (confirmed): `calculateWeightedScore` returns
`Σ(score·weight) / Σ(weight)` over exactly the metrics present in the
map (absent metrics contribute to neither sum), and the result depends
only on the key→score mapping, so it is invariant under any reordering
(permutation with distinct keys) of the map entries. -/
theorem calculateWeightedScore_sum_and_order :
    (∀ scores : ScoresMap,
      (∃ m ∈ METRIC_DEFINITIONS, (mapGet scores m.name).isSome = true) →
      calculateWeightedScore scores =
        ((METRIC_DEFINITIONS.filter (fun m => (mapGet scores m.name).isSome)).map
            (fun m => ((mapGet scores m.name).getD 0) * m.weight)).sum /
        ((METRIC_DEFINITIONS.filter (fun m => (mapGet scores m.name).isSome)).map
            (fun m => m.weight)).sum) ∧
    (∀ l1 l2 : ScoresMap, l1.Perm l2 → (l1.map Prod.fst).Nodup →
      calculateWeightedScore l1 = calculateWeightedScore l2) := by
  constructor
  · intro scores h
    obtain ⟨m0, hm0, hsome0⟩ := h
    unfold calculateWeightedScore
    rw [weightedFold_sums scores METRIC_DEFINITIONS (0, 0)]
    have hmem : m0 ∈ METRIC_DEFINITIONS.filter (fun m => (mapGet scores m.name).isSome) :=
      List.mem_filter.mpr ⟨hm0, hsome0⟩
    have hpos : 0 < ((METRIC_DEFINITIONS.filter
        (fun m => (mapGet scores m.name).isSome)).map (fun m => m.weight)).sum := by
      apply List.sum_pos
      · intro w hw
        obtain ⟨m, hm, rfl⟩ := List.mem_map.mp hw
        exact metric_weights_pos m (List.mem_of_mem_filter hm)
      · exact fun hnil => by
          rw [List.map_eq_nil_iff] at hnil
          exact absurd (hnil ▸ hmem) (List.not_mem_nil m0)
    simp only [zero_add]
    rw [if_pos hpos]
  · intro l1 l2 hperm hnd
    exact calculateWeightedScore_congr (mapGet_perm hperm hnd)

/-- Witness for `calculateWeightedScore_sum_and_order`: the sum formula
at a one-entry map, and order invariance for a two-entry map and its
reversal. -/
theorem calculateWeightedScore_sum_and_order_witness :
    (calculateWeightedScore [("exception-types", (4 : ℚ)/5)] =
      ((METRIC_DEFINITIONS.filter
          (fun m => (mapGet [("exception-types", (4 : ℚ)/5)] m.name).isSome)).map
          (fun m => ((mapGet [("exception-types", (4 : ℚ)/5)] m.name).getD 0) * m.weight)).sum /
      ((METRIC_DEFINITIONS.filter
          (fun m => (mapGet [("exception-types", (4 : ℚ)/5)] m.name).isSome)).map
          (fun m => m.weight)).sum) ∧
    calculateWeightedScore [("supabase-auth", (1 : ℚ)), ("transactions", 0)] =
      calculateWeightedScore [("transactions", (0 : ℚ)), ("supabase-auth", 1)] := by
  constructor
  · exact calculateWeightedScore_sum_and_order.1 [("exception-types", (4 : ℚ)/5)]
      ⟨{ name := "exception-types", displayName := "Exception Type Compliance",
         sopFile := "5-error-handling-logging", weight := 10/100, blockOnFail := false,
         thresholds := { pass := 95/100, warn := 85/100, fail := 7/10 } },
       by simp [METRIC_DEFINITIONS], rfl⟩
  · exact calculateWeightedScore_sum_and_order.2
      [("supabase-auth", (1 : ℚ)), ("transactions", 0)]
      [("transactions", (0 : ℚ)), ("supabase-auth", 1)]
      (List.Perm.swap _ _ _) (by simp)

/-- Witness for `exceptionTypes_passed_from_ratio`: the sensitive-log
file contains no throw statement, so its score is 1 and it passes. -/
theorem exceptionTypes_passed_from_ratio_witness :
    (validateExceptionTypes [("auth.service.ts", sensitiveLogContent)]).score = 1 ∧
    (validateExceptionTypes [("auth.service.ts", sensitiveLogContent)]).passed = true :=
  exceptionTypes_passed_from_ratio.2.1 [("auth.service.ts", sensitiveLogContent)] (by decide)

/-- `isOkE` ignores a continuation that always succeeds. -/
lemma isOkE_bind (x : Except String α) (g : α → Except String β)
    (hg : ∀ a, isOkE (g a) = true) : isOkE (x >>= g) = isOkE x := by
  cases x with
  | error e => rfl
  | ok a => simpa [Bind.bind, Except.bind] using hg a

/-- The per-line rule fold succeeds exactly when every rule check on
that line returns without throwing. -/
lemma runRulesOnLine_ok (filename : String) (lineNum : ℕ) (line : String)
    (lctx : LineContext) :
    ∀ (rules : List GeneralRule) (acc : List Violation × List Warning),
      isOkE (runRulesOnLine rules filename lineNum line lctx acc) =
      rules.all (fun rule => isOkE (rule.check line lineNum lctx)) := by
  intro rules
  induction rules with
  | nil => intro acc; rfl
  | cons r rest ih =>
    intro acc
    simp only [runRulesOnLine] at ih ⊢
    rw [List.foldlM_cons, List.all_cons]
    cases hr : r.check line lineNum lctx with
    | error e => rfl
    | ok v =>
      cases v with
      | none => exact ih acc
      | some rv => split <;> exact ih _

/-- The per-file fold over enumerated lines succeeds exactly when every
rule check succeeds on every line. -/
lemma linesFold_ok (rules : List GeneralRule) (filename content : String) :
    ∀ (ps : List (ℕ × String)) (acc : List Violation × List Warning),
      isOkE (ps.foldlM (fun acc2 p =>
        runRulesOnLine rules filename (p.1 + 1) p.2
          (buildLineContext filename content (jsLines content) p.1) acc2) acc) =
      ps.all (fun p => rules.all (fun rule => isOkE
        (rule.check p.2 (p.1 + 1)
          (buildLineContext filename content (jsLines content) p.1)))) := by
  intro ps
  induction ps with
  | nil => intro acc; rfl
  | cons p rest ih =>
    intro acc
    rw [List.foldlM_cons, List.all_cons]
    cases hf : runRulesOnLine rules filename (p.1 + 1) p.2
        (buildLineContext filename content (jsLines content) p.1) acc with
    | error e =>
      have hhead : rules.all (fun rule => isOkE (rule.check p.2 (p.1 + 1)
          (buildLineContext filename content (jsLines content) p.1))) = false := by
        rw [← runRulesOnLine_ok filename (p.1 + 1) p.2
          (buildLineContext filename content (jsLines content) p.1) rules acc, hf]
        rfl
      simp only [hf, hhead, Bool.false_and]
      rfl
    | ok a =>
      have hhead : rules.all (fun rule => isOkE (rule.check p.2 (p.1 + 1)
          (buildLineContext filename content (jsLines content) p.1))) = true := by
        rw [← runRulesOnLine_ok filename (p.1 + 1) p.2
          (buildLineContext filename content (jsLines content) p.1) rules acc, hf]
        rfl
      simp only [hf, hhead, Bool.true_and]
      exact ih a

/-- The engine fold over the whole context succeeds exactly when every
rule check succeeds on every line of every file. -/
lemma filesFold_ok (rules : List GeneralRule) :
    ∀ (ctx : ValidationContext) (acc : List Violation × List Warning),
      isOkE (ctx.foldlM (fun acc f =>
        (jsLines f.2).enum.foldlM (fun acc2 p =>
          runRulesOnLine rules f.1 (p.1 + 1) p.2
            (buildLineContext f.1 f.2 (jsLines f.2) p.1) acc2) acc) acc) =
      allChecksOk rules ctx := by
  intro ctx
  induction ctx with
  | nil => intro acc; rfl
  | cons f rest ih =>
    intro acc
    rw [List.foldlM_cons]
    simp only [allChecksOk, List.all_cons]
    cases hf : (jsLines f.2).enum.foldlM (fun acc2 p =>
        runRulesOnLine rules f.1 (p.1 + 1) p.2
          (buildLineContext f.1 f.2 (jsLines f.2) p.1) acc2) acc with
    | error e =>
      have hhead : ((jsLines f.2).enum.all (fun p => rules.all (fun rule => isOkE
          (rule.check p.2 (p.1 + 1) (buildLineContext f.1 f.2 (jsLines f.2) p.1))))) = false := by
        rw [← linesFold_ok rules f.1 f.2 (jsLines f.2).enum acc, hf]
        rfl
      simp only [hf, hhead, Bool.false_and]
      rfl
    | ok a =>
      have hhead : ((jsLines f.2).enum.all (fun p => rules.all (fun rule => isOkE
          (rule.check p.2 (p.1 + 1) (buildLineContext f.1 f.2 (jsLines f.2) p.1))))) = true := by
        rw [← linesFold_ok rules f.1 f.2 (jsLines f.2).enum acc, hf]
        rfl
      simp only [hf, hhead, Bool.true_and]
      exact ih a

/-- **C6 counterexample**: the rule engine of `validateGeneralPractices`
has no try/catch around the rule checks, so a rule whose check throws
makes the whole validation fail with that exception: the engine
propagates it to the caller instead of treating it as "no finding" and
continuing with the remaining rules and lines. -/
theorem generalPractices_claim_counterexample :
    runGeneralRules [faultyRule]
      [("service.ts", "const x = 1;\nconst y = 2;")] =
      Except.error "TypeError: boom" := by
  rfl

/-- **C6** (corrected): the rule engine evaluates rules with no
exception handling, so it returns a `ValidationResult` exactly when
every rule check on every line of every file returns without throwing;
any throwing check fails the whole validation. -/
theorem generalPractices_ok_iff_no_rule_throws :
    (∀ (rules : List GeneralRule) (ctx : ValidationContext),
      isOkE (runGeneralRules rules ctx) = allChecksOk rules ctx) ∧
    (∀ ctx : ValidationContext,
      isOkE (validateGeneralPractices ctx) = allChecksOk allRules ctx) := by
  have hmain : ∀ (rules : List GeneralRule) (ctx : ValidationContext),
      isOkE (runGeneralRules rules ctx) = allChecksOk rules ctx := by
    intro rules ctx
    unfold runGeneralRules
    rw [isOkE_bind]
    · exact filesFold_ok rules ctx ([], [])
    · intro a; rfl
  exact ⟨hmain, fun ctx => hmain allRules ctx⟩

/-- Behaviour of the correction loop body: the history grows by one
`CorrectionResult` per iteration performed, the iteration counter counts
exactly those entries, at most `fuel` iterations run, and every history
entry except possibly the last applied at least one fix (an empty-fix
iteration breaks the loop immediately). -/
lemma correctionLoopAux_spec (config : CorrectionConfig) :
    ∀ (fuel : ℕ) (content : String) (viols : List Violation) (iters : ℕ)
      (hist : List CorrectionResult),
      ∃ T : List CorrectionResult,
        (correctionLoopAux config fuel content viols iters hist).2.2.2 = hist ++ T ∧
        (correctionLoopAux config fuel content viols iters hist).1 = iters + T.length ∧
        T.length ≤ fuel ∧
        (∀ k, k + 1 < T.length →
          (T.getD k ⟨"", "", [], []⟩).appliedFixes.length ≠ 0) := by
  intro fuel
  induction fuel with
  | zero =>
    intro content viols iters hist
    exact ⟨[], by simp [correctionLoopAux], by simp [correctionLoopAux],
      Nat.le_refl 0, fun k hk => absurd hk (by simp)⟩
  | succ fuel ih =>
    intro content viols iters hist
    by_cases hv : viols.length = 0
    · exact ⟨[], by simp [correctionLoopAux, hv], by simp [correctionLoopAux, hv],
        Nat.zero_le _, fun k hk => absurd hk (by simp)⟩
    · by_cases ha : (applyFixes content viols config).appliedFixes.length = 0
      · refine ⟨[applyFixes content viols config], ?_, ?_, by simp, fun k hk => absurd hk (by simp)⟩
        · simp [correctionLoopAux, hv, ha]
        · simp [correctionLoopAux, hv, ha]
      · obtain ⟨T', h1, h2, h3, h4⟩ := ih (applyFixes content viols config).corrected
          (applyFixes content viols config).remainingViolations (iters + 1)
          (hist ++ [applyFixes content viols config])
        have hstep : correctionLoopAux config (fuel + 1) content viols iters hist =
            correctionLoopAux config fuel (applyFixes content viols config).corrected
              (applyFixes content viols config).remainingViolations (iters + 1)
              (hist ++ [applyFixes content viols config]) := by
          simp [correctionLoopAux, hv, ha]
        refine ⟨applyFixes content viols config :: T', ?_, ?_, ?_, ?_⟩
        · rw [hstep, h1, List.append_assoc]
          rfl
        · rw [hstep, h2]
          simp only [List.length_cons]
          omega
        · simp only [List.length_cons]
          omega
        · intro k hk
          cases k with
          | zero => simpa using ha
          | succ j =>
            have hk' : j + 1 < T'.length := by
              simp only [List.length_cons] at hk
              omega
            simpa using h4 j hk'

/-- **C5** (confirmed): for every content and config, `runCorrectionLoop`
performs at most `config.maxIterations` iterations, records exactly one
history entry per iteration, and halts immediately after any iteration
whose `applyFixes` call applied zero fixes: every history entry except
possibly the last has a non-empty `appliedFixes` list. -/
theorem correctionLoop_halts (content : String) (config : CorrectionConfig) :
    (runCorrectionLoop content config).iterations ≤ config.maxIterations ∧
    (runCorrectionLoop content config).iterations =
      (runCorrectionLoop content config).correctionHistory.length ∧
    (∀ k, k + 1 < (runCorrectionLoop content config).correctionHistory.length →
      ((runCorrectionLoop content config).correctionHistory.getD k
        ⟨"", "", [], []⟩).appliedFixes.length ≠ 0) := by
  obtain ⟨T, hH, hI, hL, hP⟩ := correctionLoopAux_spec config config.maxIterations
    content (validatorSweep [("file.ts", content)]) 0 []
  have hist_eq : (runCorrectionLoop content config).correctionHistory =
      (correctionLoopAux config config.maxIterations content
        (validatorSweep [("file.ts", content)]) 0 []).2.2.2 := rfl
  have iter_eq : (runCorrectionLoop content config).iterations =
      (correctionLoopAux config config.maxIterations content
        (validatorSweep [("file.ts", content)]) 0 []).1 := rfl
  refine ⟨?_, ?_, ?_⟩
  · rw [iter_eq, hI]
    simpa using hL
  · rw [iter_eq, hist_eq, hI, hH]
    simp
  · intro k hk
    rw [hist_eq, hH] at hk ⊢
    simpa using hP k (by simpa using hk)

/-- Bounds for the `if violations = 0 then 1 else max 0 (1 - n·c)` score
shape shared by several validators. -/
lemma scoreIf_bounds (L : ℕ) (c : ℚ) (hc : 0 ≤ c) :
    0 ≤ (if L = 0 then (1 : ℚ) else max 0 (1 - (L : ℚ) * c)) ∧
    (if L = 0 then (1 : ℚ) else max 0 (1 - (L : ℚ) * c)) ≤ 1 := by
  split_ifs with h
  · norm_num
  · refine ⟨le_max_left _ _, max_le (by norm_num) ?_⟩
    have hL : (0 : ℚ) ≤ (L : ℚ) * c := by positivity
    linarith

/-- Bounds for the `max 0 (1 - a)` score shape. -/
lemma clamp1_bounds (a : ℚ) (ha : 0 ≤ a) :
    0 ≤ max 0 (1 - a) ∧ max 0 (1 - a) ≤ 1 :=
  ⟨le_max_left _ _, max_le (by norm_num) (by linarith)⟩

/-- Bounds for the `max 0 (1 - a - b)` score shape. -/
lemma clamp2_bounds (a b : ℚ) (ha : 0 ≤ a) (hb : 0 ≤ b) :
    0 ≤ max 0 (1 - a - b) ∧ max 0 (1 - a - b) ≤ 1 :=
  ⟨le_max_left _ _, max_le (by norm_num) (by linarith)⟩

/-- Bounds for the `max 0 (1 - a - b - c)` score shape. -/
lemma clamp3_bounds (a b c : ℚ) (ha : 0 ≤ a) (hb : 0 ≤ b) (hc : 0 ≤ c) :
    0 ≤ max 0 (1 - a - b - c) ∧ max 0 (1 - a - b - c) ≤ 1 :=
  ⟨le_max_left _ _, max_le (by norm_num) (by linarith)⟩

/-- Bounds for the compliant/total ratio score of
`validateExceptionTypes`. -/
lemma ratio_bounds (n g : ℕ) :
    0 ≤ (if n + g = 0 then (1 : ℚ) else (n : ℚ) / ((n + g : ℕ) : ℚ)) ∧
    (if n + g = 0 then (1 : ℚ) else (n : ℚ) / ((n + g : ℕ) : ℚ)) ≤ 1 := by
  split_ifs with h
  · norm_num
  · have hpos : (0 : ℚ) < ((n + g : ℕ) : ℚ) := by
      exact_mod_cast Nat.pos_of_ne_zero h
    refine ⟨by positivity, ?_⟩
    rw [div_le_one hpos]
    exact_mod_cast Nat.le_add_right n g

lemma validateSupabaseAuth_score01 (ctx : ValidationContext) :
    0 ≤ (validateSupabaseAuth ctx).score ∧ (validateSupabaseAuth ctx).score ≤ 1 :=
  scoreIf_bounds _ _ (by norm_num)

lemma validateTenantIsolation_score01 (ctx : ValidationContext) :
    0 ≤ (validateTenantIsolation ctx).score ∧ (validateTenantIsolation ctx).score ≤ 1 :=
  clamp2_bounds _ _ (by positivity) (by positivity)

lemma validateAuditLogging_score01 (ctx : ValidationContext) :
    0 ≤ (validateAuditLogging ctx).score ∧ (validateAuditLogging ctx).score ≤ 1 :=
  scoreIf_bounds _ _ (by norm_num)

lemma validatePrismaQueries_score01 (ctx : ValidationContext) :
    0 ≤ (validatePrismaQueries ctx).score ∧ (validatePrismaQueries ctx).score ≤ 1 :=
  clamp3_bounds _ _ _ (by positivity) (by positivity) (by positivity)

lemma validateTransactions_score01 (ctx : ValidationContext) :
    0 ≤ (validateTransactions ctx).score ∧ (validateTransactions ctx).score ≤ 1 :=
  scoreIf_bounds _ _ (by norm_num)

lemma validateCodeSafetyPatterns_score01 (ctx : ValidationContext) :
    0 ≤ (validateCodeSafetyPatterns ctx).score ∧ (validateCodeSafetyPatterns ctx).score ≤ 1 :=
  scoreIf_bounds _ _ (by norm_num)

lemma validateExceptionTypes_score01 (ctx : ValidationContext) :
    0 ≤ (validateExceptionTypes ctx).score ∧ (validateExceptionTypes ctx).score ≤ 1 :=
  ratio_bounds _ _

lemma validateLogging_score01 (ctx : ValidationContext) :
    0 ≤ (validateLogging ctx).score ∧ (validateLogging ctx).score ≤ 1 :=
  scoreIf_bounds _ _ (by norm_num)

lemma validateExternalServicePatterns_score01 (ctx : ValidationContext) :
    0 ≤ (validateExternalServicePatterns ctx).score ∧
    (validateExternalServicePatterns ctx).score ≤ 1 :=
  clamp2_bounds _ _ (by positivity) (by positivity)

lemma validateJobProcessing_score01 (ctx : ValidationContext) :
    0 ≤ (validateJobProcessing ctx).score ∧ (validateJobProcessing ctx).score ≤ 1 :=
  clamp2_bounds _ _ (by positivity) (by positivity)

lemma validateApiDesign_score01 (ctx : ValidationContext) :
    0 ≤ (validateApiDesign ctx).score ∧ (validateApiDesign ctx).score ≤ 1 :=
  scoreIf_bounds _ _ (by norm_num)

lemma validateCodeQuality_score01 (ctx : ValidationContext) :
    0 ≤ (validateCodeQuality ctx).score ∧ (validateCodeQuality ctx).score ≤ 1 :=
  clamp2_bounds _ _ (by positivity) (by positivity)

/-- A successful `Except` bind splits into a successful scrutinee and a
successful continuation. -/
lemma except_bind_ok (x : Except String α) (g : α → Except String β)
    (res : β) (h : (x >>= g) = Except.ok res) :
    ∃ a, x = Except.ok a ∧ g a = Except.ok res := by
  cases x with
  | error e => exact absurd h (by simp [Bind.bind, Except.bind])
  | ok a => exact ⟨a, rfl, by simpa [Bind.bind, Except.bind] using h⟩

/-- Any successful run of the general-practices engine yields a score in
`[0, 1]`. -/
lemma runGeneralRules_ok_score (rules : List GeneralRule) (ctx : ValidationContext)
    (res : ValidationResult) (h : runGeneralRules rules ctx = Except.ok res) :
    0 ≤ res.score ∧ res.score ≤ 1 := by
  unfold runGeneralRules at h
  obtain ⟨acc, -, hk⟩ := except_bind_ok _ _ _ h
  simp only [Pure.pure, Except.pure, Except.ok.injEq] at hk
  subst hk
  exact clamp3_bounds _ _ _ (by positivity) (by positivity) (by positivity)

/-- **C3** (confirmed): every validator of the registry returns a score
in `[0, 1]` on every context, and so does `validateGeneralPractices`
whenever it returns a result at all. -/
theorem registry_scores_in_unit_interval :
    (∀ p ∈ validatorsRegistry, ∀ ctx : ValidationContext,
      0 ≤ (p.2 ctx).score ∧ (p.2 ctx).score ≤ 1) ∧
    (∀ (ctx : ValidationContext) (res : ValidationResult),
      validateGeneralPractices ctx = Except.ok res →
      0 ≤ res.score ∧ res.score ≤ 1) := by
  constructor
  · intro p hp ctx
    fin_cases hp
    · exact validateSupabaseAuth_score01 ctx
    · exact validateTenantIsolation_score01 ctx
    · exact validateAuditLogging_score01 ctx
    · exact validatePrismaQueries_score01 ctx
    · exact validateTransactions_score01 ctx
    · exact validateCodeSafetyPatterns_score01 ctx
    · exact validateExceptionTypes_score01 ctx
    · exact validateLogging_score01 ctx
    · exact validateExternalServicePatterns_score01 ctx
    · exact validateJobProcessing_score01 ctx
    · exact validateApiDesign_score01 ctx
    · exact validateCodeQuality_score01 ctx
  · intro ctx res h
    exact runGeneralRules_ok_score allRules ctx res h

/-- Witness for `registry_scores_in_unit_interval`: the first registry
entry on the empty context, and the general-practices validator on the
empty context (which succeeds with score `max 0 1`). -/
theorem registry_scores_in_unit_interval_witness :
    (0 ≤ ((("supabase-auth", validateSupabaseAuth) :
          String × (ValidationContext → ValidationResult)).2 []).score ∧
        ((("supabase-auth", validateSupabaseAuth) :
          String × (ValidationContext → ValidationResult)).2 []).score ≤ 1) ∧
    (0 ≤ (ValidationResult.score
        { sopFile := "general-practices", metric := "general-best-practices",
          score := max 0 (1 - ((0 : ℕ) : ℚ) * (3/10) - ((0 : ℕ) : ℚ) * (1/10) -
            ((0 : ℕ) : ℚ) * (2/100)),
          passed := true, violations := [], warnings := [], suggestions := [] }) ∧
      (ValidationResult.score
        { sopFile := "general-practices", metric := "general-best-practices",
          score := max 0 (1 - ((0 : ℕ) : ℚ) * (3/10) - ((0 : ℕ) : ℚ) * (1/10) -
            ((0 : ℕ) : ℚ) * (2/100)),
          passed := true, violations := [], warnings := [], suggestions := [] }) ≤ 1) := by
  constructor
  · exact registry_scores_in_unit_interval.1 ("supabase-auth", validateSupabaseAuth)
      (List.mem_cons_self _ _) []
  · exact registry_scores_in_unit_interval.2 []
      { sopFile := "general-practices", metric := "general-best-practices",
        score := max 0 (1 - ((0 : ℕ) : ℚ) * (3/10) - ((0 : ℕ) : ℚ) * (1/10) -
          ((0 : ℕ) : ℚ) * (2/100)),
        passed := true, violations := [], warnings := [], suggestions := [] }
      (by rfl)

/-- Witness for `correctionLoop_halts` at the mixed-fix content and the
default three-iteration config. -/
theorem correctionLoop_halts_witness :
    (runCorrectionLoop mixedFixContent { maxIterations := 3, autoFix := true }).iterations ≤
      ({ maxIterations := 3, autoFix := true } : CorrectionConfig).maxIterations ∧
    (runCorrectionLoop mixedFixContent { maxIterations := 3, autoFix := true }).iterations =
      (runCorrectionLoop mixedFixContent
        { maxIterations := 3, autoFix := true }).correctionHistory.length ∧
    (∀ k, k + 1 < (runCorrectionLoop mixedFixContent
        { maxIterations := 3, autoFix := true }).correctionHistory.length →
      ((runCorrectionLoop mixedFixContent
          { maxIterations := 3, autoFix := true }).correctionHistory.getD k
        ⟨"", "", [], []⟩).appliedFixes.length ≠ 0) :=
  correctionLoop_halts mixedFixContent { maxIterations := 3, autoFix := true }

/-- Witness for `generalPractices_ok_iff_no_rule_throws`: the throwing
rule on a two-line file (the engine fails) and the full rule catalog on
a clean line (the engine succeeds). -/
theorem generalPractices_ok_iff_no_rule_throws_witness :
    isOkE (runGeneralRules [faultyRule] [("service.ts", "const x = 1;")]) =
      allChecksOk [faultyRule] [("service.ts", "const x = 1;")] ∧
    isOkE (validateGeneralPractices [("service.ts", "const x = 1;")]) =
      allChecksOk allRules [("service.ts", "const x = 1;")] :=
  ⟨generalPractices_ok_iff_no_rule_throws.1 [faultyRule] [("service.ts", "const x = 1;")],
   generalPractices_ok_iff_no_rule_throws.2 [("service.ts", "const x = 1;")]⟩
